import Mathlib

/-!
# Verification of the Rust WebSocket relay / auto-trade server

Shallow embedding of the per-symbol incremental `AnalysisGenerator`
(`RustLib/indicator_math/src/generator.rs`) and of the relevant parts of the
`auto_multi_trade` event loop (`src/main.rs`): the once-per-minute decision
pass, the buy-response handler and the contract-settlement handler.

Conventions of the embedding:
* Rust `f64` values are modelled as `ℚ`.  Every `f64` literal of the source
  (`0.0001`, `2.0`, `100.0`, `0.33`, …) is read as the decimal rational it
  denotes.  `f64::sqrt` and `f64::log10` have no rational counterpart; they
  are passed in as abstract parameters (`RealFuns`) and no theorem below
  depends on their values.
* Rust `usize`/`u64`/`u32` are modelled as `Nat` (`usize` subtraction in the
  source only occurs where it cannot underflow, matching `Nat` truncation).
* `VecDeque` ring buffers and `Vec`s are modelled as `List`s
  (`push_back` = append at the right, `pop_front` = `drop 1`).
* `HashMap<String, _>` is modelled as an association list with
  insert-replaces-key semantics.
* Mutation is modelled by explicit state passing: `append_candle` returns the
  updated generator together with the produced `AnalysisResult`.
-/

namespace RelayServer

/-- Rust `structs.rs` `Candle`: one closed 60-second OHLC candle. -/
structure Candle where
  time : Nat
  «open» : ℚ
  high : ℚ
  low : ℚ
  close : ℚ
  deriving DecidableEq

/-- Rust `structs.rs` `AnalysisOptions`: immutable per-generator configuration. -/
structure AnalysisOptions where
  ema1_period : Nat
  ema1_type : String
  ema2_period : Nat
  ema2_type : String
  ema3_period : Nat
  ema3_type : String
  atr_period : Nat
  atr_multiplier : ℚ
  bb_period : Nat
  ci_period : Nat
  adx_period : Nat
  rsi_period : Nat
  flat_threshold : ℚ
  macd_narrow : ℚ
  deriving DecidableEq

/-- Rust `structs.rs` `BBValues`. -/
structure BBValues where
  upper : Option ℚ
  middle : Option ℚ
  lower : Option ℚ
  deriving DecidableEq

/-- Rust `structs.rs` `AnalysisResult`: one record per closed candle. -/
structure AnalysisResult where
  index : Nat
  candletime : Nat
  candletime_display : String
  «open» : ℚ
  high : ℚ
  low : ℚ
  close : ℚ
  color : String
  next_color : Option String
  pip_size : ℚ
  ema_short_value : Option ℚ
  ema_short_direction : String
  ema_short_turn_type : String
  ema_medium_value : Option ℚ
  ema_medium_direction : String
  ema_long_value : Option ℚ
  ema_long_direction : String
  ema_above : Option String
  ema_long_above : Option String
  macd_12 : Option ℚ
  macd_23 : Option ℚ
  previous_ema_short_value : Option ℚ
  previous_ema_medium_value : Option ℚ
  previous_ema_long_value : Option ℚ
  previous_macd_12 : Option ℚ
  previous_macd_23 : Option ℚ
  ema_convergence_type : Option String
  ema_long_convergence_type : String
  choppy_indicator : Option ℚ
  adx_value : Option ℚ
  rsi_value : Option ℚ
  bb_values : BBValues
  bb_position : String
  atr : Option ℚ
  is_abnormal_candle : Bool
  is_abnormal_atr : Bool
  u_wick : ℚ
  u_wick_percent : ℚ
  body : ℚ
  body_percent : ℚ
  l_wick : ℚ
  l_wick_percent : ℚ
  ema_cut_position : Option String
  ema_cut_long_type : Option String
  candles_since_ema_cut : Option Nat
  up_con_medium_ema : Nat
  down_con_medium_ema : Nat
  up_con_long_ema : Nat
  down_con_long_ema : Nat
  is_mark : String
  status_code : String
  status_desc : String
  status_desc_0 : String
  hint_status : String
  suggest_color : String
  win_status : String
  win_con : Nat
  loss_con : Nat
  deriving DecidableEq

/-- Rust `structs.rs` `CandleMasterCode`: one codebook entry. -/
structure CandleMasterCode where
  status_code : String
  status_desc : String
  deriving DecidableEq

/-- Rust `generator.rs` `GeneratorState`. -/
structure GeneratorState where
  last_ema_1 : ℚ
  last_ema_2 : ℚ
  last_ema_3 : ℚ
  last_atr : ℚ
  rsi_avg_gain : ℚ
  rsi_avg_loss : ℚ
  up_con_medium_ema : Nat
  down_con_medium_ema : Nat
  up_con_long_ema : Nat
  down_con_long_ema : Nat
  last_ema_cut_index : Option Nat
  prev_analysis : Option AnalysisResult
  last_analysis : Option AnalysisResult
  last_candle : Option Candle
  rsi_period : Nat
  atr_period : Nat
  tr_sum : ℚ
  pdm_sum : ℚ
  mdm_sum : ℚ
  adx_val : ℚ
  dx_count : Nat
  adx_period : Nat
  bb_window : List ℚ
  bb_period : Nat
  ci_window : List Candle
  ci_atr_window : List ℚ
  ci_period : Nat
  ema_1_k : ℚ
  ema_2_k : ℚ
  ema_3_k : ℚ
  close_window : List ℚ
  max_ma_period : Nat
  deriving DecidableEq

/-- Rust `GeneratorState::new(options)`. -/
def GeneratorState.new (options : AnalysisOptions) : GeneratorState :=
  let max_period := max (max options.ema1_period options.ema2_period) options.ema3_period
  let buffer_size := max_period * 2
  { last_ema_1 := 0
    last_ema_2 := 0
    last_ema_3 := 0
    last_atr := 0
    rsi_avg_gain := 0
    rsi_avg_loss := 0
    up_con_medium_ema := 0
    down_con_medium_ema := 0
    up_con_long_ema := 0
    down_con_long_ema := 0
    last_ema_cut_index := none
    prev_analysis := none
    last_analysis := none
    last_candle := none
    atr_period := options.atr_period
    rsi_period := options.rsi_period
    tr_sum := 0
    pdm_sum := 0
    mdm_sum := 0
    adx_val := 0
    dx_count := 0
    adx_period := options.adx_period
    bb_window := []
    bb_period := options.bb_period
    ci_window := []
    ci_atr_window := []
    ci_period := options.ci_period
    ema_1_k := 2 / ((options.ema1_period : ℚ) + 1)
    ema_2_k := 2 / ((options.ema2_period : ℚ) + 1)
    ema_3_k := 2 / ((options.ema3_period : ℚ) + 1)
    close_window := []
    max_ma_period := buffer_size }

/-- Rust `generator.rs` `AnalysisGenerator` (the `master_codes` `Arc` is a plain list). -/
structure AnalysisGenerator where
  options : AnalysisOptions
  state : GeneratorState
  analysis_array : List AnalysisResult
  candle_data : List Candle
  current_candle : Option Candle
  master_codes : List CandleMasterCode
  deriving DecidableEq

/-- Rust `AnalysisGenerator::new`. -/
def AnalysisGenerator.new (options : AnalysisOptions)
    (master_codes : List CandleMasterCode) : AnalysisGenerator :=
  { options := options
    state := GeneratorState.new options
    analysis_array := []
    candle_data := []
    current_candle := none
    master_codes := master_codes }

/-- Abstract stand-ins for the `f64` operations with no rational counterpart
(`f64::sqrt` on band variance, `f64::log10` in the choppiness index).
No theorem in this file depends on their values. -/
structure RealFuns where
  sqrtQ : ℚ → ℚ
  log10Q : ℚ → ℚ

/-- Rust `AnalysisGenerator::calculate_wma`. -/
def calculate_wma (data : List ℚ) (period : Nat) : ℚ :=
  if data.length < period then 0
  else
    let acc := (List.range period).foldl
      (fun (nd : ℚ × ℚ) j =>
        let val := data.getD (data.length - 1 - j) 0
        let w : ℚ := ((period - j : Nat) : ℚ)
        (nd.1 + val * w, nd.2 + w))
      (0, 0)
    acc.1 / acc.2

/-- Rust `AnalysisGenerator::calculate_ema_slice`. -/
def calculate_ema_slice (data : List ℚ) (period : Nat) : ℚ :=
  match data with
  | [] => 0
  | d0 :: rest =>
    let k : ℚ := 2 / ((period : ℚ) + 1)
    rest.foldl (fun ema x => x * k + ema * (1 - k)) d0

/-- Rust `AnalysisGenerator::calculate_ma`.  The `close_window` argument is the
state's window *after* the new close has been pushed (the source calls this
with `self.state.close_window` already updated, and chains the current price
once more). -/
def calculate_ma (close_window : List ℚ) (ma_type : String) (period : Nat)
    (current_price last_ema_state ema_k : ℚ) : ℚ :=
  if ma_type = "EMA" then current_price * ema_k + last_ema_state * (1 - ema_k)
  else if ma_type = "HMA" ∨ ma_type = "EHMA" then
    if close_window.length + 1 < period then current_price
    else
      let data := close_window ++ [current_price]
      if ma_type = "HMA" then
        let half := max (period / 2) 1
        let sqrt := Nat.sqrt period
        let needed := sqrt
        let len := data.length
        if len < period then current_price
        else
          let raw_series := (List.range needed).filterMap (fun j =>
            let end_idx := len - (needed - 1 - j)
            if end_idx < period then none
            else
              let slice := data.take end_idx
              let wma_half := calculate_wma slice half
              let wma_full := calculate_wma slice period
              some (2 * wma_half - wma_full))
          calculate_wma raw_series sqrt
      else
        let half := max (period / 2) 1
        let sqrt := Nat.sqrt period
        let len := data.length
        if len < period then current_price
        else
          let k_half : ℚ := 2 / ((half : ℚ) + 1)
          let k_full : ℚ := 2 / ((period : ℚ) + 1)
          let d0 := data.headD 0
          let acc := (data.drop 1).foldl
            (fun (st : ℚ × ℚ × List ℚ) x =>
              let val_half := x * k_half + st.1 * (1 - k_half)
              let val_full := x * k_full + st.2.1 * (1 - k_full)
              (val_half, val_full, st.2.2 ++ [2 * val_half - val_full]))
            (d0, d0, [])
          calculate_ema_slice acc.2.2 sqrt
  else current_price * ema_k + last_ema_state * (1 - ema_k)

/-- Rust `AnalysisGenerator::get_ema_direction`. -/
def get_ema_direction (options : AnalysisOptions) (prev curr : ℚ) : String :=
  let diff := prev - curr
  if |diff| ≤ options.flat_threshold then "Flat"
  else if prev < curr then "Up"
  else "Down"

/-- The `analysis_array.last_mut()` patch at the end of `append_candle`:
set the `next_color` of the last produced result, if any. -/
def set_next_color_of_last (arr : List AnalysisResult) (c : String) :
    List AnalysisResult :=
  match arr.getLast? with
  | none => arr
  | some last => arr.dropLast ++ [{ last with next_color := some c }]

/-- Fold-maximum as the source's `fold(f64::NEG_INFINITY, f64::max)`:
on the nonempty windows it is applied to this is the list maximum
(0 for the empty list, unreachable when `ci_period ≥ 1`). -/
def fold_max (l : List ℚ) : ℚ :=
  match l with
  | [] => 0
  | x :: xs => xs.foldl max x

/-- Fold-minimum as the source's `fold(f64::INFINITY, f64::min)`. -/
def fold_min (l : List ℚ) : ℚ :=
  match l with
  | [] => 0
  | x :: xs => xs.foldl min x

/-- Rust `AnalysisGenerator::append_candle`, `generator.rs` lines 299–989.
Returns the updated generator and the produced `AnalysisResult`. -/
def append_candle (F : RealFuns) (g : AnalysisGenerator) (new_candle : Candle) :
    AnalysisGenerator × AnalysisResult :=
  let i := g.analysis_array.length
  let prev_candle := g.state.last_candle
  let candle_data := g.candle_data ++ [new_candle]
  -- 1. EMA/HMA/EHMA: update the history window first
  let close_window :=
    let w := g.state.close_window ++ [new_candle.close]
    if g.state.max_ma_period < w.length then w.drop 1 else w
  let close := new_candle.close
  let new_ema_1 :=
    if i = 0 then close
    else calculate_ma close_window g.options.ema1_type g.options.ema1_period close
      g.state.last_ema_1 g.state.ema_1_k
  let new_ema_2 :=
    if i = 0 then close
    else calculate_ma close_window g.options.ema2_type g.options.ema2_period close
      g.state.last_ema_2 g.state.ema_2_k
  let new_ema_3 :=
    if i = 0 then close
    else calculate_ma close_window g.options.ema3_type g.options.ema3_period close
      g.state.last_ema_3 g.state.ema_3_k
  -- Directions
  let ema_1_dir :=
    if 0 < i then get_ema_direction g.options g.state.last_ema_1 new_ema_1 else "Flat"
  let ema_2_dir :=
    if 0 < i then get_ema_direction g.options g.state.last_ema_2 new_ema_2 else "Flat"
  let ema_3_dir :=
    if 0 < i then get_ema_direction g.options g.state.last_ema_3 new_ema_3 else "Flat"
  -- Turn type (needs `prev_analysis` = index i−2 and `last_analysis` = index i−1)
  let ema_short_turn_type :=
    match g.state.prev_analysis with
    | none => "-"
    | some prev_analysis =>
      match prev_analysis.ema_short_value with
      | none => "-"
      | some prev_prev_val =>
        match g.state.last_analysis.bind (fun a => a.ema_short_value) with
        | none => "-"
        | some _ =>
          let curr_diff := new_ema_1 - g.state.last_ema_1
          let prev_diff := g.state.last_ema_1 - prev_prev_val
          let curr_dir_calc :=
            if curr_diff > 1/10000 then "Up"
            else if curr_diff < -(1/10000) then "Down"
            else "Flat"
          let prev_dir_calc :=
            if prev_diff > 1/10000 then "Up"
            else if prev_diff < -(1/10000) then "Down"
            else "Flat"
          if curr_dir_calc = "Up" ∧ prev_dir_calc = "Down" then "TurnUp"
          else if curr_dir_calc = "Down" ∧ prev_dir_calc = "Up" then "TurnDown"
          else "-"
  -- Consecutives
  let up_con_medium_ema :=
    if ema_2_dir = "Up" then g.state.up_con_medium_ema + 1
    else if ema_2_dir = "Down" then 0
    else g.state.up_con_medium_ema
  let down_con_medium_ema :=
    if ema_2_dir = "Up" then 0
    else if ema_2_dir = "Down" then g.state.down_con_medium_ema + 1
    else g.state.down_con_medium_ema
  let up_con_long_ema :=
    if ema_3_dir = "Up" then g.state.up_con_long_ema + 1
    else if ema_3_dir = "Down" then 0
    else g.state.up_con_long_ema
  let down_con_long_ema :=
    if ema_3_dir = "Up" then 0
    else if ema_3_dir = "Down" then g.state.down_con_long_ema + 1
    else g.state.down_con_long_ema
  -- 2. MACD
  let ema_above := if new_ema_1 > new_ema_2 then "ShortAbove" else "MediumAbove"
  let ema_long_above := if new_ema_2 > new_ema_3 then "MediumAbove" else "LongAbove"
  let macd_12 := |new_ema_1 - new_ema_2|
  let macd_23 := |new_ema_2 - new_ema_3|
  let prev_macd_12 := g.state.last_analysis.bind (fun a => a.macd_12)
  let prev_macd_23 := g.state.last_analysis.bind (fun a => a.macd_23)
  let ema_convergence_type :=
    match prev_macd_12 with
    | some prev =>
      if macd_12 > prev then "divergence"
      else if macd_12 < prev then "convergence"
      else "neutral"
    | none => "neutral"
  let ema_long_convergence_type :=
    match prev_macd_23 with
    | some prev =>
      if macd_23 > prev then "D"
      else if macd_23 < prev then "C"
      else "N"
    | none => "N"
  -- EmaCutLongType
  let ema_cut_long_type : Option String :=
    if 0 < i then
      let prev_medium_above := g.state.last_ema_2 > g.state.last_ema_3
      let curr_medium_above := new_ema_2 > new_ema_3
      if curr_medium_above ≠ prev_medium_above then
        some (if curr_medium_above then "UpTrend" else "DownTrend")
      else none
    else none
  let last_ema_cut_index :=
    if ema_cut_long_type.isSome then some i else g.state.last_ema_cut_index
  let candles_since_ema_cut := last_ema_cut_index.map (fun idx => i - idx)
  -- 3. ATR
  let tr :=
    match prev_candle with
    | some p =>
      max (max (new_candle.high - new_candle.low) |new_candle.high - p.close|)
        |new_candle.low - p.close|
    | none => new_candle.high - new_candle.low
  let new_atr :=
    if i < g.state.atr_period then
      if i = 0 then tr
      else ((g.state.last_atr * (i : ℚ)) + tr) / ((i : ℚ) + 1)
    else
      ((g.state.last_atr * ((g.state.atr_period : ℚ) - 1)) + tr)
        / (g.state.atr_period : ℚ)
  -- 4. RSI
  let rsi_step : (ℚ × ℚ) × Option ℚ :=
    match prev_candle with
    | none => ((g.state.rsi_avg_gain, g.state.rsi_avg_loss), none)
    | some p =>
      let change := close - p.close
      let gain := if change > 0 then change else 0
      let loss := if change < 0 then |change| else 0
      if i < g.state.rsi_period then
        let acc_gain := if i = 0 then gain else g.state.rsi_avg_gain + gain
        let acc_loss := if i = 0 then loss else g.state.rsi_avg_loss + loss
        if i + 1 = g.state.rsi_period then
          let ag := acc_gain / (g.state.rsi_period : ℚ)
          let al := acc_loss / (g.state.rsi_period : ℚ)
          let rs := if al = 0 then 100 else ag / al
          ((ag, al), some (100 - (100 / (1 + rs))))
        else ((acc_gain, acc_loss), none)
      else
        let ag := (g.state.rsi_avg_gain * ((g.state.rsi_period : ℚ) - 1) + gain)
          / (g.state.rsi_period : ℚ)
        let al := (g.state.rsi_avg_loss * ((g.state.rsi_period : ℚ) - 1) + loss)
          / (g.state.rsi_period : ℚ)
        let rs := if al = 0 then 100 else ag / al
        ((ag, al), some (100 - (100 / (1 + rs))))
  let new_rsi_avg_gain := rsi_step.1.1
  let new_rsi_avg_loss := rsi_step.1.2
  let rsi_value := rsi_step.2
  -- 5. BB
  let bb_window :=
    let w := g.state.bb_window ++ [close]
    if g.state.bb_period < w.length then w.drop 1 else w
  let bbv : Option ℚ × Option ℚ × Option ℚ :=
    if g.state.bb_period ≤ bb_window.length then
      let sum := bb_window.sum
      let avg := sum / (g.state.bb_period : ℚ)
      let variance := (bb_window.map (fun x => (x - avg) ^ 2)).sum
      let std := F.sqrtQ (variance / (g.state.bb_period : ℚ))
      (some (avg + 2 * std), some avg, some (avg - 2 * std))
    else (none, none, none)
  let bb_upper := bbv.1
  let bb_middle := bbv.2.1
  let bb_lower := bbv.2.2
  let bb_position :=
    match bb_upper, bb_lower with
    | some u, some l =>
      let range := u - l
      let upper_zone := u - range * (33/100)
      let lower_zone := l + range * (33/100)
      if close ≥ upper_zone then "NearUpper"
      else if close ≤ lower_zone then "NearLower"
      else "Middle"
    | _, _ => "Unknown"
  -- 6. CI
  let ci_window :=
    let w := g.state.ci_window ++ [new_candle]
    if g.state.ci_period < w.length then w.drop 1 else w
  let ci_atr_window :=
    let w := g.state.ci_atr_window ++ [new_atr]
    if g.state.ci_period < w.length then w.drop 1 else w
  let choppy_indicator : Option ℚ :=
    if g.state.ci_period ≤ ci_window.length then
      let high_max := fold_max (ci_window.map (fun c => c.high))
      let low_min := fold_min (ci_window.map (fun c => c.low))
      let sum_atr := ci_atr_window.sum
      if high_max - low_min > 0 then
        some (100 * F.log10Q (sum_atr / (high_max - low_min))
          / F.log10Q (g.state.ci_period : ℚ))
      else some 0
    else none
  -- 7. ADX
  let adx_step : (ℚ × ℚ × ℚ × ℚ × Nat) × Option ℚ :=
    match prev_candle with
    | none =>
      ((g.state.tr_sum, g.state.pdm_sum, g.state.mdm_sum, g.state.adx_val,
        g.state.dx_count), none)
    | some p =>
      let up_move := new_candle.high - p.high
      let down_move := p.low - new_candle.low
      let pdm := if up_move > down_move ∧ up_move > 0 then up_move else 0
      let mdm := if down_move > up_move ∧ down_move > 0 then down_move else 0
      let sums : ℚ × ℚ × ℚ :=
        if i < g.state.adx_period then
          (g.state.tr_sum + tr, g.state.pdm_sum + pdm, g.state.mdm_sum + mdm)
        else
          (g.state.tr_sum - g.state.tr_sum / (g.state.adx_period : ℚ) + tr,
           g.state.pdm_sum - g.state.pdm_sum / (g.state.adx_period : ℚ) + pdm,
           g.state.mdm_sum - g.state.mdm_sum / (g.state.adx_period : ℚ) + mdm)
      let tr_sum := sums.1
      let pdm_sum := sums.2.1
      let mdm_sum := sums.2.2
      if g.state.adx_period ≤ i ∧ tr_sum > 0 then
        let di_plus := pdm_sum / tr_sum * 100
        let di_minus := mdm_sum / tr_sum * 100
        let sum_di := di_plus + di_minus
        let dx := if sum_di = 0 then 0 else |di_plus - di_minus| / sum_di * 100
        let dx_count := g.state.dx_count + 1
        let adx_val :=
          if dx_count ≤ g.state.adx_period then
            g.state.adx_val + dx / (g.state.adx_period : ℚ)
          else
            (g.state.adx_val * ((g.state.adx_period : ℚ) - 1) + dx)
              / (g.state.adx_period : ℚ)
        ((tr_sum, pdm_sum, mdm_sum, adx_val, dx_count),
          if g.state.adx_period ≤ dx_count then some adx_val else none)
      else
        ((tr_sum, pdm_sum, mdm_sum, g.state.adx_val, g.state.dx_count), none)
  let tr_sum := adx_step.1.1
  let pdm_sum := adx_step.1.2.1
  let mdm_sum := adx_step.1.2.2.1
  let adx_val := adx_step.1.2.2.2.1
  let dx_count := adx_step.1.2.2.2.2
  let adx_value := adx_step.2
  -- 8. Properties
  let color :=
    if close > new_candle.open then "Green"
    else if close < new_candle.open then "Red"
    else "Equal"
  let pip_size := |close - new_candle.open|
  let body_top := max new_candle.open close
  let body_bottom := min new_candle.open close
  let u_wick := new_candle.high - body_top
  let body := |close - new_candle.open|
  let l_wick := body_bottom - new_candle.low
  let full_candle_size := new_candle.high - new_candle.low
  let body_percent := if full_candle_size > 0 then body / full_candle_size * 100 else 0
  let u_wick_percent := if full_candle_size > 0 then u_wick / full_candle_size * 100 else 0
  let l_wick_percent := if full_candle_size > 0 then l_wick / full_candle_size * 100 else 0
  let is_abnormal_candle : Bool :=
    match prev_candle with
    | some p =>
      let tr_val := max (max (new_candle.high - new_candle.low)
        |new_candle.high - p.close|) |new_candle.low - p.close|
      decide (tr_val > new_atr * g.options.atr_multiplier)
    | none => false
  let is_abnormal_atr : Bool :=
    if new_atr > 0 then
      decide (body > new_atr * g.options.atr_multiplier
        ∨ full_candle_size > new_atr * g.options.atr_multiplier * (3/2))
    else false
  -- emaCutPosition
  let ema_cut_position : Option String :=
    if new_ema_1 > new_candle.high then some "1"
    else if new_ema_1 ≥ body_top ∧ new_ema_1 ≤ new_candle.high then some "2"
    else if new_ema_1 ≥ body_bottom ∧ new_ema_1 < body_top then
      let body_range := body_top - body_bottom
      if body_range > 0 then
        let pos := (new_ema_1 - body_bottom) / body_range
        if pos ≥ 66/100 then some "B1"
        else if pos ≥ 33/100 then some "B2"
        else some "B3"
      else some "B2"
    else if new_ema_1 ≥ new_candle.low ∧ new_ema_1 < body_bottom then some "3"
    else if new_ema_1 < new_candle.low then some "4"
    else none
  -- StatusDesc
  let c1 :=
    if ema_long_above = "MediumAbove" then "M"
    else if ema_long_above = "LongAbove" then "L"
    else "-"
  let c2 := if ema_2_dir = "Up" then "U" else if ema_2_dir = "Down" then "D" else "F"
  let c3 := if ema_3_dir = "Up" then "U" else if ema_3_dir = "Down" then "D" else "F"
  let c4 := color.take 1
  let c5 := if ema_long_convergence_type ≠ "" then ema_long_convergence_type else "-"
  let status_desc := c1 ++ "-" ++ c2 ++ "-" ++ c3 ++ "-" ++ c4 ++ "-" ++ c5
  let status_code :=
    match g.master_codes.find? (fun code => code.status_desc == status_desc) with
    | some code => code.status_code
    | none => ""
  let analysis_obj : AnalysisResult :=
    { index := i
      candletime := new_candle.time
      candletime_display := ""
      «open» := new_candle.open
      high := new_candle.high
      low := new_candle.low
      close := new_candle.close
      color := color
      next_color := none
      pip_size := pip_size
      ema_short_value := some new_ema_1
      ema_short_direction := ema_1_dir
      ema_short_turn_type := ema_short_turn_type
      ema_medium_value := some new_ema_2
      ema_medium_direction := ema_2_dir
      ema_long_value := some new_ema_3
      ema_long_direction := ema_3_dir
      ema_above := some ema_above
      ema_long_above := some ema_long_above
      macd_12 := some macd_12
      macd_23 := some macd_23
      previous_ema_short_value := g.state.last_analysis.bind (fun a => a.ema_short_value)
      previous_ema_medium_value := g.state.last_analysis.bind (fun a => a.ema_medium_value)
      previous_ema_long_value := g.state.last_analysis.bind (fun a => a.ema_long_value)
      previous_macd_12 := prev_macd_12
      previous_macd_23 := prev_macd_23
      ema_convergence_type := some ema_convergence_type
      ema_long_convergence_type := ema_long_convergence_type
      choppy_indicator := choppy_indicator
      adx_value := adx_value
      rsi_value := rsi_value
      bb_values := { upper := bb_upper, middle := bb_middle, lower := bb_lower }
      bb_position := bb_position
      atr := some new_atr
      is_abnormal_candle := is_abnormal_candle
      is_abnormal_atr := is_abnormal_atr
      u_wick := u_wick
      u_wick_percent := u_wick_percent
      body := body
      body_percent := body_percent
      l_wick := l_wick
      l_wick_percent := l_wick_percent
      ema_cut_position := ema_cut_position
      ema_cut_long_type := ema_cut_long_type
      candles_since_ema_cut := candles_since_ema_cut
      up_con_medium_ema := up_con_medium_ema
      down_con_medium_ema := down_con_medium_ema
      up_con_long_ema := up_con_long_ema
      down_con_long_ema := down_con_long_ema
      is_mark := "n"
      status_code := status_code
      status_desc := status_desc
      status_desc_0 := status_desc
      hint_status := ""
      suggest_color := ""
      win_status := ""
      win_con := 0
      loss_con := 0 }
  -- Update next color of previous, push, update state
  let analysis_array := set_next_color_of_last g.analysis_array color ++ [analysis_obj]
  let state' : GeneratorState :=
    { g.state with
      last_ema_1 := new_ema_1
      last_ema_2 := new_ema_2
      last_ema_3 := new_ema_3
      last_atr := new_atr
      rsi_avg_gain := new_rsi_avg_gain
      rsi_avg_loss := new_rsi_avg_loss
      up_con_medium_ema := up_con_medium_ema
      down_con_medium_ema := down_con_medium_ema
      up_con_long_ema := up_con_long_ema
      down_con_long_ema := down_con_long_ema
      last_ema_cut_index := last_ema_cut_index
      tr_sum := tr_sum
      pdm_sum := pdm_sum
      mdm_sum := mdm_sum
      adx_val := adx_val
      dx_count := dx_count
      bb_window := bb_window
      ci_window := ci_window
      ci_atr_window := ci_atr_window
      close_window := close_window
      prev_analysis := g.state.last_analysis
      last_analysis := some analysis_obj
      last_candle := some new_candle }
  ({ g with
      state := state'
      analysis_array := analysis_array
      candle_data := candle_data }, analysis_obj)

/-- Rust `AnalysisGenerator::append_tick`, `generator.rs` lines 991–1032. -/
def append_tick (F : RealFuns) (g : AnalysisGenerator) (price : ℚ) (time : Nat) :
    AnalysisGenerator × Option AnalysisResult :=
  let tick_minute := time / 60 * 60
  match g.current_candle with
  | some current =>
    if current.time + 60 ≤ time then
      let completed_candle := current
      let step := append_candle F g completed_candle
      ({ step.1 with
          current_candle := some
            { time := tick_minute, «open» := price, high := price,
              low := price, close := price } }, some step.2)
    else
      ({ g with
          current_candle := some
            { current with
              high := max current.high price,
              low := min current.low price,
              close := price } }, none)
  | none =>
    ({ g with
        current_candle := some
          { time := tick_minute, «open» := price, high := price,
            low := price, close := price } }, none)

/-- Feed a list of candles in order through `append_candle`. -/
def run_candles (F : RealFuns) (g : AnalysisGenerator) (cs : List Candle) :
    AnalysisGenerator :=
  cs.foldl (fun acc c => (append_candle F acc c).1) g

/-- Feed a list of `(price, time)` ticks in order through `append_tick`. -/
def run_ticks (F : RealFuns) (g : AnalysisGenerator) (ts : List (ℚ × Nat)) :
    AnalysisGenerator :=
  ts.foldl (fun acc t => (append_tick F acc t.1 t.2).1) g

/-! ## The `auto_multi_trade` loop (`src/main.rs`)

The pieces of the trading loop the claims are about: the per-minute decision
pass (lines 3234–3301), the buy-response handler (lines 3361–3404) and the
contract-settlement handler (lines 3453–3643).  `HashMap`s are modelled as
association lists with insert-replaces-key semantics. -/

/-- Rust `main.rs` `TradeSignalEntry`: one rulebook entry from `tradeSignal.json`. -/
structure TradeSignalEntry where
  id : String
  asset_code : String
  put_signal : String
  call_signal : String
  is_active : String
  deriving DecidableEq

/-- Rust `main.rs` line 2968: the fixed Martingale stake ladder. -/
def martingale_stakes : List ℚ := [1, 2, 6, 18, 54, 162, 384, 800, 1600]

/-- Rust `HashMap::insert` on the association-list model (replaces the key). -/
def alist_insert {β : Type} (m : List (String × β)) (k : String) (v : β) :
    List (String × β) :=
  (k, v) :: m.filter (fun p => p.1 != k)

/-- Rust `HashMap::remove` on the association-list model: returns the removed
value (if any) and the remaining map. -/
def alist_remove {β : Type} (m : List (String × β)) (k : String) :
    Option β × List (String × β) :=
  (m.lookup k, m.filter (fun p => p.1 != k))

/-- The mutable local state of the `auto_multi_trade` loop that the decision
pass, the buy-response handler and the settlement handler touch
(`main.rs` lines 2962–3010). -/
structure AutoTradeState where
  balance : ℚ
  grand_profit : ℚ
  win_count : Nat
  trade_count : Nat
  lot_active : Bool
  stake_index_per_asset : List (String × Nat)
  pending_contracts : List (String × String)
  sub_ids : List String
  current_money_mode : String
  current_initial_stake : ℚ
  target_profit : ℚ
  target_win : Nat
  deriving DecidableEq

/-- A dispatched buy order (the `buy` message of `main.rs` lines 3268–3283;
`price` and `amount` are both `stake`). -/
structure BuyOrder where
  contract_type : String
  symbol : String
  stake : ℚ
  deriving DecidableEq

/-- The body of the decision pass's `for entry in &signal_entries` loop
(`main.rs` lines 3234–3301): either skips the entry or appends the
dispatched buy order. -/
def decision_pass_step (s : AutoTradeState) (asset_symbols : List String)
    (generators : List (String × AnalysisGenerator))
    (trade_entries : List BuyOrder) (entry : TradeSignalEntry) : List BuyOrder :=
  if entry.is_active != "y" then trade_entries
  else if ¬ asset_symbols.contains entry.asset_code then trade_entries
  else
    match generators.lookup entry.asset_code with
    | none => trade_entries
    | some gen =>
      match gen.state.last_analysis with
      | none => trade_entries
      | some analysis =>
        let code_str := analysis.status_code
        let call_codes := (entry.call_signal.splitOn ",").map String.trim
        let put_codes := (entry.put_signal.splitOn ",").map String.trim
        let decision :=
          if call_codes.contains code_str then "CALL"
          else if put_codes.contains code_str then "PUT"
          else "IDLE"
        if decision = "CALL" ∨ decision = "PUT" then
          let stake_idx := (s.stake_index_per_asset.lookup entry.asset_code).getD 0
          let stake :=
            if s.current_money_mode = "martingale" then
              martingale_stakes.getD (min stake_idx (martingale_stakes.length - 1)) 0
            else s.current_initial_stake
          if s.balance ≥ stake then
            trade_entries ++
              [{ contract_type := decision, symbol := entry.asset_code, stake := stake }]
          else trade_entries
        else trade_entries

/-- The decision pass of `auto_multi_trade`, `main.rs` lines 3234–3301:
one iteration over `signal_entries`, accumulating the dispatched buy
orders.  The generators map is passed as an association list; the pass
itself only runs when `lot_active` holds (line 3228). -/
def decision_pass (s : AutoTradeState) (signal_entries : List TradeSignalEntry)
    (asset_symbols : List String)
    (generators : List (String × AnalysisGenerator)) : List BuyOrder :=
  signal_entries.foldl (decision_pass_step s asset_symbols generators) []

/-- The buy-response handler, `main.rs` lines 3361–3404 (the part that
mutates loop state): record the contract and increment `trade_count`. -/
def handle_buy_response (s : AutoTradeState) (contract_id asset_for_contract : String) :
    AutoTradeState :=
  { s with
    pending_contracts := alist_insert s.pending_contracts contract_id asset_for_contract
    trade_count := s.trade_count + 1 }

/-- The settlement fields extracted from a `proposal_open_contract` frame
(`main.rs` lines 3409–3456). -/
structure ProposalSettlement where
  contract_id : String
  status : String
  profit : ℚ
  buy_price : ℚ
  contract_type : String
  deriving DecidableEq

/-- The externally visible effects of the settlement handler that the claims
are about: the `trade_result` win/loss status, the `forget` messages sent,
the final `auto_trade_status.active` flag (if such a broadcast happens), and
whether the loop `break`s. -/
structure SettleEffects where
  is_win : Bool
  trade_result_status : String
  forget_ids : List String
  final_status_active : Option Bool
  loop_break : Bool
  deriving DecidableEq

/-- The contract-settlement handler of `auto_multi_trade`, `main.rs` lines
3453–3643: runs when the contract status is final (`sold`/`won`/`lost`).
Log-file, Firestore and non-final broadcasts are external sinks and carry no
loop state.  NOTE: at the stop condition the source (line 3624) executes
`let _lot_active = false;`, which binds a fresh unused local and does *not*
assign the loop's `lot_active` flag; the flag is therefore left unchanged
here, exactly as in the source. -/
def handle_contract_final (s : AutoTradeState) (p : ProposalSettlement) :
    AutoTradeState × SettleEffects :=
  if p.status = "sold" ∨ p.status = "won" ∨ p.status = "lost" then
    let profit := p.profit
    let balance := s.balance + profit
    let grand_profit := s.grand_profit + profit
    let is_win := decide (profit > 0)
    let win_count := if is_win then s.win_count + 1 else s.win_count
    let removed := alist_remove s.pending_contracts p.contract_id
    let asset_for_contract := removed.1.getD ""
    let pending_contracts := removed.2
    let stake_index_per_asset :=
      if is_win then alist_insert s.stake_index_per_asset asset_for_contract 0
      else if s.current_money_mode = "martingale" then
        let idx := (s.stake_index_per_asset.lookup asset_for_contract).getD 0
        alist_insert s.stake_index_per_asset asset_for_contract
          (min (idx + 1) (martingale_stakes.length - 1))
      else s.stake_index_per_asset
    let stop_trading :=
      if s.current_money_mode = "fix" then decide (grand_profit ≥ s.target_profit)
      else if s.current_money_mode = "martingale" then decide (win_count ≥ s.target_win)
      else false
    let s' : AutoTradeState :=
      { s with
        balance := balance
        grand_profit := grand_profit
        win_count := win_count
        pending_contracts := pending_contracts
        stake_index_per_asset := stake_index_per_asset }
    let eff : SettleEffects :=
      if stop_trading then
        { is_win := is_win
          trade_result_status := if is_win then "win" else "loss"
          forget_ids := s.sub_ids
          final_status_active := some false
          loop_break := true }
      else
        { is_win := is_win
          trade_result_status := if is_win then "win" else "loss"
          forget_ids := []
          final_status_active := none
          loop_break := false }
    (s', eff)
  else
    (s, { is_win := false, trade_result_status := "", forget_ids := [],
          final_status_active := none, loop_break := false })

/-! ## Spec-side definitions

Definitions written from the wording of the specification, used to compare
against the code-side `decision_pass` (refinement). -/

/-- Spec §4.4.1 wording: "if `status_code` ∈ `call_codes` → CALL; elif ∈
`put_codes` → PUT; else IDLE". -/
def specClassify (call_codes put_codes : List String) (code : String) : String :=
  if code ∈ call_codes then "CALL"
  else if code ∈ put_codes then "PUT"
  else "IDLE"

/-- Spec §4.4.1 wording: "in `fix` mode use current `initial_stake`; in
`martingale` mode read a per-symbol stake-progression index into the fixed
ladder `[1, 2, 6, 18, 54, 162, 384, 800, 1600]` (clamp to last)". -/
def specStake (mode : String) (initial_stake : ℚ) (idx : Nat) : ℚ :=
  if mode = "fix" then initial_stake
  else if 8 ≤ idx then 1600
  else ([1, 2, 6, 18, 54, 162, 384, 800, 1600] : List ℚ).getD idx 0

/-- Spec §4.4.1 wording, one candidate symbol of the decision pass: skip
unless the rulebook entry is active and selected and its generator has a
last analysis; classify; a buy order results exactly when the decision is
CALL or PUT and `balance ≥ stake`. -/
def specCandidate (s : AutoTradeState) (asset_symbols : List String)
    (generators : List (String × AnalysisGenerator)) (entry : TradeSignalEntry) :
    Option BuyOrder :=
  if entry.is_active = "y" ∧ asset_symbols.contains entry.asset_code then
    match (generators.lookup entry.asset_code).bind (fun gen => gen.state.last_analysis) with
    | some analysis =>
      let call_codes := (entry.call_signal.splitOn ",").map String.trim
      let put_codes := (entry.put_signal.splitOn ",").map String.trim
      let decision := specClassify call_codes put_codes analysis.status_code
      if decision = "IDLE" then none
      else
        let stake := specStake s.current_money_mode s.current_initial_stake
          ((s.stake_index_per_asset.lookup entry.asset_code).getD 0)
        if s.balance ≥ stake then
          some { contract_type := decision, symbol := entry.asset_code, stake := stake }
        else none
    | none => none
  else none

/-- The gain of one RSI step (`if change > 0 { change } else { 0.0 }`). -/
def wilder_gain (change : ℚ) : ℚ := if change > 0 then change else 0

/-- The loss of one RSI step (`if change < 0 { change.abs() } else { 0.0 }`). -/
def wilder_loss (change : ℚ) : ℚ := if change < 0 then |change| else 0

/-- Rust `rs = if avg_loss == 0 { 100.0 } else { avg_gain / avg_loss }`. -/
def rs_of (ag al : ℚ) : ℚ := if al = 0 then 100 else ag / al

/-- Rust `RSI = 100 − 100/(1+rs)`. -/
def rsi_of_rs (rs : ℚ) : ℚ := 100 - (100 / (1 + rs))

/-- Spec-side per-step gains of the RSI warmup ("accumulate sums of gains
… skipping the first candle because it has no prior close"):
`wilder_gain` of each consecutive close pair. -/
def step_gains : List ℚ → List ℚ
  | a :: b :: rest => wilder_gain (b - a) :: step_gains (b :: rest)
  | _ => []

/-- Spec-side per-step losses of the RSI warmup. -/
def step_losses : List ℚ → List ℚ
  | a :: b :: rest => wilder_loss (b - a) :: step_losses (b :: rest)
  | _ => []

/-- The closes of a candle list. -/
def closes (cs : List Candle) : List ℚ := cs.map (fun c => c.close)

/-- The RSI block of `append_candle` (`generator.rs` lines 533–598), factored
out for the proofs; `append_candle_rsi_value` and its companions below show
that the factoring is definitional. -/
def rsi_step_of (g : AnalysisGenerator) (c : Candle) : (ℚ × ℚ) × Option ℚ :=
  let i := g.analysis_array.length
  match g.state.last_candle with
  | none => ((g.state.rsi_avg_gain, g.state.rsi_avg_loss), none)
  | some p =>
    let gain := wilder_gain (c.close - p.close)
    let loss := wilder_loss (c.close - p.close)
    if i < g.state.rsi_period then
      let acc_gain := if i = 0 then gain else g.state.rsi_avg_gain + gain
      let acc_loss := if i = 0 then loss else g.state.rsi_avg_loss + loss
      if i + 1 = g.state.rsi_period then
        let ag := acc_gain / (g.state.rsi_period : ℚ)
        let al := acc_loss / (g.state.rsi_period : ℚ)
        ((ag, al), some (rsi_of_rs (rs_of ag al)))
      else ((acc_gain, acc_loss), none)
    else
      let ag := (g.state.rsi_avg_gain * ((g.state.rsi_period : ℚ) - 1) + gain)
        / (g.state.rsi_period : ℚ)
      let al := (g.state.rsi_avg_loss * ((g.state.rsi_period : ℚ) - 1) + loss)
        / (g.state.rsi_period : ℚ)
      ((ag, al), some (rsi_of_rs (rs_of ag al)))


/-! ## Witness fixtures: a small concrete configuration -/

/-- Concrete stand-in for the abstract `sqrt`/`log10` (their values are
irrelevant to every theorem). -/
def fixFuns : RealFuns := ⟨fun _ => 0, fun _ => 0⟩

/-- Concrete options: plain EMAs, RSI period 2, large other periods. -/
def fixOpts : AnalysisOptions :=
  { ema1_period := 100, ema1_type := "EMA", ema2_period := 100, ema2_type := "EMA",
    ema3_period := 100, ema3_type := "EMA", atr_period := 100, atr_multiplier := 2,
    bb_period := 100, ci_period := 100, adx_period := 100, rsi_period := 2,
    flat_threshold := 1/5, macd_narrow := 3/20 }

/-- Concrete options with RSI period 1. -/
def fixOpts1 : AnalysisOptions := { fixOpts with rsi_period := 1 }

def fixCandle (t : Nat) (o h l c : ℚ) : Candle :=
  { time := t, «open» := o, high := h, low := l, close := c }

def fixGen0 : AnalysisGenerator := AnalysisGenerator.new fixOpts []

def fixGen1 : AnalysisGenerator :=
  (append_candle fixFuns fixGen0 (fixCandle 0 1 1 1 1)).1

/-- A generator whose last appended candle has time 120 (for the
out-of-order scenario). -/
def fixGen120 : AnalysisGenerator :=
  (append_candle fixFuns fixGen0 (fixCandle 120 1 1 1 1)).1

/-- Concrete trader state for the C1 witness. -/
def fixTradeState : AutoTradeState :=
  { balance := 1000, grand_profit := 0, win_count := 0, trade_count := 0,
    lot_active := true, stake_index_per_asset := [], pending_contracts := [],
    sub_ids := [], current_money_mode := "fix", current_initial_stake := 1,
    target_profit := 10, target_win := 5 }

/-- A rulebook entry whose call-code set contains the empty code `""` (the
status code of `fixGen1`, whose codebook is empty). -/
def fixEntry : TradeSignalEntry :=
  { id := "1", asset_code := "X", put_signal := "42", call_signal := "",
    is_active := "y" }

/-- Concrete trader state for the settlement theorems: fix mode, target
profit 10, a pending contract `C1` on symbol `X` whose ladder index is 3,
and two live subscriptions. -/
def fixSettleState : AutoTradeState :=
  { balance := 1000, grand_profit := 0, win_count := 0, trade_count := 0,
    lot_active := true, stake_index_per_asset := [("X", 3)],
    pending_contracts := [("C1", "X")], sub_ids := ["s1", "s2"],
    current_money_mode := "fix", current_initial_stake := 1,
    target_profit := 10, target_win := 5 }

/-- A winning settlement of contract `C1` with profit 10. -/
def fixSettlement10 : ProposalSettlement :=
  { contract_id := "C1", status := "won", profit := 10, buy_price := 1,
    contract_type := "CALL" }

/-- The pair-exclusivity invariant on the consecutive-direction counters. -/
def ConCountersInv (g : AnalysisGenerator) : Prop :=
  (g.state.up_con_medium_ema = 0 ∨ g.state.down_con_medium_ema = 0)
  ∧ (g.state.up_con_long_ema = 0 ∨ g.state.down_con_long_ema = 0)

/-- The run invariant of the RSI warmup: the generator's accumulators hold
the running gain/loss *sums* while fewer than `period` candles have been
seen, the *averages* (divided by `period`) at exactly `period` candles, and
every produced result has an RSI value exactly from the `period`-th candle
(1-based) onward. -/
def RsiRunInv (period : Nat) (g : AnalysisGenerator) : Prop :=
  g.state.rsi_period = period
  ∧ g.analysis_array.length = g.candle_data.length
  ∧ g.state.last_candle = g.candle_data.getLast?
  ∧ (g.candle_data.length < period →
      g.state.rsi_avg_gain = (step_gains (closes g.candle_data)).sum
      ∧ g.state.rsi_avg_loss = (step_losses (closes g.candle_data)).sum)
  ∧ (g.candle_data.length = period →
      g.state.rsi_avg_gain = (step_gains (closes g.candle_data)).sum / (period : ℚ)
      ∧ g.state.rsi_avg_loss = (step_losses (closes g.candle_data)).sum / (period : ℚ))
  ∧ (∀ r ∈ g.analysis_array, (r.rsi_value.isSome ↔ period ≤ r.index + 1))

/-! ## Definitional projection lemmas for `append_candle`

Each of these holds by `rfl`: the right-hand side is the corresponding
binding inside `append_candle`. -/

theorem append_candle_candletime (F : RealFuns) (g : AnalysisGenerator) (c : Candle) :
    (append_candle F g c).2.candletime = c.time := rfl

theorem append_candle_index (F : RealFuns) (g : AnalysisGenerator) (c : Candle) :
    (append_candle F g c).2.index = g.analysis_array.length := rfl

theorem append_candle_next_color (F : RealFuns) (g : AnalysisGenerator) (c : Candle) :
    (append_candle F g c).2.next_color = none := rfl

theorem append_candle_color (F : RealFuns) (g : AnalysisGenerator) (c : Candle) :
    (append_candle F g c).2.color =
      (if c.close > c.«open» then "Green"
       else if c.close < c.«open» then "Red" else "Equal") := rfl

theorem append_candle_analysis_array (F : RealFuns) (g : AnalysisGenerator) (c : Candle) :
    (append_candle F g c).1.analysis_array =
      set_next_color_of_last g.analysis_array ((append_candle F g c).2.color)
        ++ [(append_candle F g c).2] := rfl

theorem append_candle_candle_data (F : RealFuns) (g : AnalysisGenerator) (c : Candle) :
    (append_candle F g c).1.candle_data = g.candle_data ++ [c] := rfl

theorem append_candle_last_candle (F : RealFuns) (g : AnalysisGenerator) (c : Candle) :
    (append_candle F g c).1.state.last_candle = some c := rfl

theorem append_candle_last_analysis (F : RealFuns) (g : AnalysisGenerator) (c : Candle) :
    (append_candle F g c).1.state.last_analysis = some (append_candle F g c).2 := rfl

theorem append_candle_rsi_period (F : RealFuns) (g : AnalysisGenerator) (c : Candle) :
    (append_candle F g c).1.state.rsi_period = g.state.rsi_period := rfl

theorem append_candle_rsi_value (F : RealFuns) (g : AnalysisGenerator) (c : Candle) :
    (append_candle F g c).2.rsi_value = (rsi_step_of g c).2 := rfl

theorem append_candle_rsi_avg_gain (F : RealFuns) (g : AnalysisGenerator) (c : Candle) :
    (append_candle F g c).1.state.rsi_avg_gain = (rsi_step_of g c).1.1 := rfl

theorem append_candle_rsi_avg_loss (F : RealFuns) (g : AnalysisGenerator) (c : Candle) :
    (append_candle F g c).1.state.rsi_avg_loss = (rsi_step_of g c).1.2 := rfl

theorem append_candle_up_con_medium (F : RealFuns) (g : AnalysisGenerator) (c : Candle) :
    (append_candle F g c).1.state.up_con_medium_ema =
      (if (append_candle F g c).2.ema_medium_direction = "Up" then
        g.state.up_con_medium_ema + 1
      else if (append_candle F g c).2.ema_medium_direction = "Down" then 0
      else g.state.up_con_medium_ema) := rfl

theorem append_candle_down_con_medium (F : RealFuns) (g : AnalysisGenerator) (c : Candle) :
    (append_candle F g c).1.state.down_con_medium_ema =
      (if (append_candle F g c).2.ema_medium_direction = "Up" then 0
      else if (append_candle F g c).2.ema_medium_direction = "Down" then
        g.state.down_con_medium_ema + 1
      else g.state.down_con_medium_ema) := rfl

theorem append_candle_up_con_long (F : RealFuns) (g : AnalysisGenerator) (c : Candle) :
    (append_candle F g c).1.state.up_con_long_ema =
      (if (append_candle F g c).2.ema_long_direction = "Up" then
        g.state.up_con_long_ema + 1
      else if (append_candle F g c).2.ema_long_direction = "Down" then 0
      else g.state.up_con_long_ema) := rfl

theorem append_candle_down_con_long (F : RealFuns) (g : AnalysisGenerator) (c : Candle) :
    (append_candle F g c).1.state.down_con_long_ema =
      (if (append_candle F g c).2.ema_long_direction = "Up" then 0
      else if (append_candle F g c).2.ema_long_direction = "Down" then
        g.state.down_con_long_ema + 1
      else g.state.down_con_long_ema) := rfl

theorem append_candle_result_up_con_medium (F : RealFuns) (g : AnalysisGenerator)
    (c : Candle) :
    (append_candle F g c).2.up_con_medium_ema =
      (append_candle F g c).1.state.up_con_medium_ema := rfl

theorem append_candle_result_down_con_medium (F : RealFuns) (g : AnalysisGenerator)
    (c : Candle) :
    (append_candle F g c).2.down_con_medium_ema =
      (append_candle F g c).1.state.down_con_medium_ema := rfl

/-! ## List helpers for the lookahead patch -/

theorem set_next_color_of_last_nil (c : String) :
    set_next_color_of_last [] c = [] := rfl

theorem set_next_color_of_last_concat (xs : List AnalysisResult)
    (last : AnalysisResult) (c : String) :
    set_next_color_of_last (xs ++ [last]) c =
      xs ++ [{ last with next_color := some c }] := by
  simp [set_next_color_of_last, List.getLast?_concat, List.dropLast_concat]

theorem length_set_next_color_of_last (arr : List AnalysisResult) (c : String) :
    (set_next_color_of_last arr c).length = arr.length := by
  rcases List.eq_nil_or_concat arr with h | ⟨xs, last, h⟩ <;> subst h
  · rfl
  · rw [List.concat_eq_append, set_next_color_of_last_concat]; simp

theorem append_candle_array_length (F : RealFuns) (g : AnalysisGenerator) (c : Candle) :
    (append_candle F g c).1.analysis_array.length = g.analysis_array.length + 1 := by
  rw [append_candle_analysis_array]
  simp [length_set_next_color_of_last]


/-! ## C9 -/

/-- C9: each `append_candle` call leaves every earlier result untouched,
patches only the `next_color` of the immediately preceding result — setting
it to the new candle's color — and appends the new result with
`next_color = none`. -/
theorem c9_next_color_frame (F : RealFuns) (g : AnalysisGenerator) (c : Candle) :
    (append_candle F g c).2.next_color = none
    ∧ (append_candle F g c).2.color =
        (if c.close > c.«open» then "Green"
         else if c.close < c.«open» then "Red" else "Equal")
    ∧ (g.analysis_array = [] →
        (append_candle F g c).1.analysis_array = [(append_candle F g c).2])
    ∧ ∀ xs last, g.analysis_array = xs ++ [last] →
        (append_candle F g c).1.analysis_array =
          xs ++ [{ last with next_color := some ((append_candle F g c).2.color) }]
            ++ [(append_candle F g c).2] := by
  refine ⟨rfl, rfl, ?_, ?_⟩
  · intro h
    rw [append_candle_analysis_array, h, set_next_color_of_last_nil, List.nil_append]
  · intro xs last h
    rw [append_candle_analysis_array, h, set_next_color_of_last_concat,
      List.append_assoc]

/-- Witness for C9 at a concrete two-candle run. -/
theorem c9_next_color_frame_witness :
    fixGen1.analysis_array = [] ++ [(append_candle fixFuns fixGen0 (fixCandle 0 1 1 1 1)).2]
    ∧ (append_candle fixFuns fixGen1 (fixCandle 60 2 2 2 2)).1.analysis_array =
        [] ++ [{ (append_candle fixFuns fixGen0 (fixCandle 0 1 1 1 1)).2 with
                  next_color :=
                    some ((append_candle fixFuns fixGen1 (fixCandle 60 2 2 2 2)).2.color) }]
          ++ [(append_candle fixFuns fixGen1 (fixCandle 60 2 2 2 2)).2] :=
  ⟨rfl,
    (c9_next_color_frame fixFuns fixGen1 (fixCandle 60 2 2 2 2)).2.2.2
      [] (append_candle fixFuns fixGen0 (fixCandle 0 1 1 1 1)).2 rfl⟩

/-! ## C7 -/

/-- C7 counterexample: `append_candle` performs no ordering check.  After a
candle with time 120, appending a candle with time 60 (≤ 120) still produces
a normal `AnalysisResult` (the return type has no error case), instead of
failing with an `OrderingError` as the claim states. -/
theorem c7_counterexample :
    fixGen120.state.last_candle = some (fixCandle 120 1 1 1 1)
    ∧ (append_candle fixFuns fixGen120 (fixCandle 60 2 2 2 2)).2.candletime = 60
    ∧ (append_candle fixFuns fixGen120 (fixCandle 60 2 2 2 2)).1.analysis_array.length = 2 :=
  ⟨rfl, rfl, rfl⟩

/-- C7 amended: `append_candle` does not detect out-of-order candles: called
with a candle whose time is ≤ the last appended candle's time, it still
produces an `AnalysisResult` for it (recorded at the out-of-order time) and
grows the series, rather than failing. -/
theorem c7_no_ordering_check (F : RealFuns) (g : AnalysisGenerator)
    (c1 c2 : Candle) (h : c2.time ≤ c1.time) :
    (append_candle F (append_candle F g c1).1 c2).2.candletime = c2.time
    ∧ (append_candle F (append_candle F g c1).1 c2).1.analysis_array.length
        = g.analysis_array.length + 2 := by
  refine ⟨rfl, ?_⟩
  rw [append_candle_array_length, append_candle_array_length]

/-- Witness for C7 (amended) at concrete out-of-order times 120 then 60. -/
theorem c7_no_ordering_check_witness :
    (60 ≤ 120
    ∧ (append_candle fixFuns (append_candle fixFuns fixGen0 (fixCandle 120 1 1 1 1)).1
        (fixCandle 60 2 2 2 2)).2.candletime = 60
    ∧ (append_candle fixFuns (append_candle fixFuns fixGen0 (fixCandle 120 1 1 1 1)).1
        (fixCandle 60 2 2 2 2)).1.analysis_array.length
        = fixGen0.analysis_array.length + 2) :=
  ⟨by decide,
    c7_no_ordering_check fixFuns fixGen0 (fixCandle 120 1 1 1 1) (fixCandle 60 2 2 2 2)
      (by decide)⟩

/-! ## C10 -/


theorem conCountersInv_step (F : RealFuns) (g : AnalysisGenerator) (c : Candle)
    (h : ConCountersInv g) : ConCountersInv (append_candle F g c).1 := by
  obtain ⟨hm, hl⟩ := h
  constructor
  · rw [append_candle_up_con_medium, append_candle_down_con_medium]
    by_cases h1 : (append_candle F g c).2.ema_medium_direction = "Up"
    · simp [h1]
    · by_cases h2 : (append_candle F g c).2.ema_medium_direction = "Down"
      · simp [h1, h2]
      · simpa [h1, h2] using hm
  · rw [append_candle_up_con_long, append_candle_down_con_long]
    by_cases h1 : (append_candle F g c).2.ema_long_direction = "Up"
    · simp [h1]
    · by_cases h2 : (append_candle F g c).2.ema_long_direction = "Down"
      · simp [h1, h2]
      · simpa [h1, h2] using hl

theorem conCountersInv_run (F : RealFuns) (g : AnalysisGenerator)
    (cs : List Candle) (h : ConCountersInv g) :
    ConCountersInv (run_candles F g cs) := by
  induction cs generalizing g with
  | nil => exact h
  | cons c cs ih => exact ih _ (conCountersInv_step F g c h)

/-- C10: after any sequence of `append_candle` calls from a fresh generator,
at most one of `up_con_medium_ema`/`down_con_medium_ema` is nonzero, and
likewise for the long pair; and whenever a step's direction is `Flat`, both
counters of that pair are left unchanged. -/
theorem c10_consecutive_counters (F : RealFuns) (opts : AnalysisOptions)
    (mc : List CandleMasterCode) (cs : List Candle) :
    (((run_candles F (AnalysisGenerator.new opts mc) cs).state.up_con_medium_ema = 0
      ∨ (run_candles F (AnalysisGenerator.new opts mc) cs).state.down_con_medium_ema = 0)
    ∧ ((run_candles F (AnalysisGenerator.new opts mc) cs).state.up_con_long_ema = 0
      ∨ (run_candles F (AnalysisGenerator.new opts mc) cs).state.down_con_long_ema = 0))
    ∧ (∀ (g : AnalysisGenerator) (c : Candle),
        (append_candle F g c).2.ema_medium_direction = "Flat" →
          (append_candle F g c).1.state.up_con_medium_ema = g.state.up_con_medium_ema
          ∧ (append_candle F g c).1.state.down_con_medium_ema = g.state.down_con_medium_ema)
    ∧ (∀ (g : AnalysisGenerator) (c : Candle),
        (append_candle F g c).2.ema_long_direction = "Flat" →
          (append_candle F g c).1.state.up_con_long_ema = g.state.up_con_long_ema
          ∧ (append_candle F g c).1.state.down_con_long_ema = g.state.down_con_long_ema) := by
  refine ⟨conCountersInv_run F _ cs ⟨Or.inl rfl, Or.inl rfl⟩, ?_, ?_⟩
  · intro g c h
    rw [append_candle_up_con_medium, append_candle_down_con_medium, h]
    simp
  · intro g c h
    rw [append_candle_up_con_long, append_candle_down_con_long, h]
    simp

/-- Witness for C10: the first candle of a fresh generator is a `Flat` step
and leaves the (zero) counters unchanged. -/
theorem c10_consecutive_counters_witness :
    (append_candle fixFuns fixGen0 (fixCandle 0 1 1 1 1)).2.ema_medium_direction = "Flat"
    ∧ (append_candle fixFuns fixGen0 (fixCandle 0 1 1 1 1)).1.state.up_con_medium_ema
        = fixGen0.state.up_con_medium_ema
    ∧ (append_candle fixFuns fixGen0 (fixCandle 0 1 1 1 1)).1.state.down_con_medium_ema
        = fixGen0.state.down_con_medium_ema := by
  refine ⟨rfl, ?_, ?_⟩
  · exact ((c10_consecutive_counters fixFuns fixOpts [] []).2.1 fixGen0
      (fixCandle 0 1 1 1 1) rfl).1
  · exact ((c10_consecutive_counters fixFuns fixOpts [] []).2.1 fixGen0
      (fixCandle 0 1 1 1 1) rfl).2

/-! ## C5: RSI bounds -/

theorem wilder_gain_nonneg (change : ℚ) : 0 ≤ wilder_gain change := by
  unfold wilder_gain; split_ifs with h
  · linarith
  · exact le_refl 0

theorem wilder_loss_nonneg (change : ℚ) : 0 ≤ wilder_loss change := by
  unfold wilder_loss; split_ifs with h
  · exact abs_nonneg _
  · exact le_refl 0

theorem rs_of_nonneg (ag al : ℚ) (hg : 0 ≤ ag) (hl : 0 ≤ al) : 0 ≤ rs_of ag al := by
  unfold rs_of; split_ifs with h
  · norm_num
  · exact div_nonneg hg hl

theorem rs_of_zero (ag : ℚ) : rs_of ag 0 = 100 := by
  unfold rs_of; simp

theorem rsi_of_rs_hundred : rsi_of_rs 100 = 10000 / 101 := by
  unfold rsi_of_rs; norm_num

theorem rsi_of_rs_bounds (rs : ℚ) (h : 0 ≤ rs) :
    0 ≤ rsi_of_rs rs ∧ rsi_of_rs rs < 100 := by
  unfold rsi_of_rs
  have h1 : (0:ℚ) < 1 + rs := by linarith
  have h2 : 100 / (1 + rs) ≤ 100 := by
    rw [div_le_iff₀ h1]; nlinarith
  have h3 : (0:ℚ) < 100 / (1 + rs) := by positivity
  constructor <;> linarith

/-- The RSI accumulators of a step stay nonnegative. -/
theorem rsi_step_of_nonneg (g : AnalysisGenerator) (c : Candle)
    (hg : 0 ≤ g.state.rsi_avg_gain) (hl : 0 ≤ g.state.rsi_avg_loss) :
    0 ≤ (rsi_step_of g c).1.1 ∧ 0 ≤ (rsi_step_of g c).1.2 := by
  unfold rsi_step_of
  split
  · exact ⟨hg, hl⟩
  · rename_i p _
    rcases Nat.eq_zero_or_pos g.state.rsi_period with hp | hp
    · simp only [hp, Nat.not_lt_zero, if_false, Nat.cast_zero, div_zero]
      exact ⟨le_refl 0, le_refl 0⟩
    · have h1 : (0:ℚ) < (g.state.rsi_period : ℚ) := by exact_mod_cast hp
      have hml : (0:ℚ) ≤ (g.state.rsi_period : ℚ) - 1 := by
        have : (1:ℚ) ≤ (g.state.rsi_period : ℚ) := by exact_mod_cast hp
        linarith
      have hacg : 0 ≤ (if g.analysis_array.length = 0 then
          wilder_gain (c.close - p.close)
        else g.state.rsi_avg_gain + wilder_gain (c.close - p.close)) := by
        split_ifs
        · exact wilder_gain_nonneg _
        · exact add_nonneg hg (wilder_gain_nonneg _)
      have hacl : 0 ≤ (if g.analysis_array.length = 0 then
          wilder_loss (c.close - p.close)
        else g.state.rsi_avg_loss + wilder_loss (c.close - p.close)) := by
        split_ifs
        · exact wilder_loss_nonneg _
        · exact add_nonneg hl (wilder_loss_nonneg _)
      by_cases h2 : g.analysis_array.length < g.state.rsi_period
      · by_cases h3 : g.analysis_array.length + 1 = g.state.rsi_period
        · rw [if_pos h2, if_pos h3]
          exact ⟨div_nonneg hacg h1.le, div_nonneg hacl h1.le⟩
        · rw [if_pos h2, if_neg h3]
          exact ⟨hacg, hacl⟩
      · rw [if_neg h2]
        exact ⟨div_nonneg (add_nonneg (mul_nonneg hg hml) (wilder_gain_nonneg _)) h1.le,
          div_nonneg (add_nonneg (mul_nonneg hl hml) (wilder_loss_nonneg _)) h1.le⟩

/-- Whenever a step produces an RSI value, it is in `[0, 100)`, and it is
`100 − 100/101 = 10000/101` whenever the step's new average loss is `0`. -/
theorem rsi_step_of_bounds (g : AnalysisGenerator) (c : Candle)
    (hg : 0 ≤ g.state.rsi_avg_gain) (hl : 0 ≤ g.state.rsi_avg_loss) :
    ∀ x, (rsi_step_of g c).2 = some x →
      (0 ≤ x ∧ x < 100) ∧ ((rsi_step_of g c).1.2 = 0 → x = 10000 / 101) := by
  have hnn := rsi_step_of_nonneg g c hg hl
  intro x hx
  revert hx hnn
  unfold rsi_step_of
  split
  · intro _ hx; exact absurd hx (by simp)
  · rename_i p _
    by_cases h2 : g.analysis_array.length < g.state.rsi_period
    · by_cases h3 : g.analysis_array.length + 1 = g.state.rsi_period
      · rw [if_pos h2, if_pos h3]
        intro hnn hx
        dsimp only at hnn hx ⊢
        obtain rfl := Option.some.inj hx
        refine ⟨rsi_of_rs_bounds _ (rs_of_nonneg _ _ hnn.1 hnn.2), ?_⟩
        intro h0
        rw [h0, rs_of_zero, rsi_of_rs_hundred]
      · rw [if_pos h2, if_neg h3]
        intro _ hx; exact absurd hx (by simp)
    · rw [if_neg h2]
      intro hnn hx
      dsimp only at hnn hx ⊢
      obtain rfl := Option.some.inj hx
      refine ⟨rsi_of_rs_bounds _ (rs_of_nonneg _ _ hnn.1 hnn.2), ?_⟩
      intro h0
      rw [h0, rs_of_zero, rsi_of_rs_hundred]

/-- The RSI accumulators stay nonnegative across an `append_candle` step. -/
theorem rsi_nonneg_step (F : RealFuns) (g : AnalysisGenerator) (c : Candle)
    (h : 0 ≤ g.state.rsi_avg_gain ∧ 0 ≤ g.state.rsi_avg_loss) :
    0 ≤ (append_candle F g c).1.state.rsi_avg_gain
    ∧ 0 ≤ (append_candle F g c).1.state.rsi_avg_loss := by
  rw [append_candle_rsi_avg_gain, append_candle_rsi_avg_loss]
  exact rsi_step_of_nonneg g c h.1 h.2

/-- The RSI accumulators stay nonnegative across any run. -/
theorem rsi_nonneg_run (F : RealFuns) (g : AnalysisGenerator) (cs : List Candle)
    (h : 0 ≤ g.state.rsi_avg_gain ∧ 0 ≤ g.state.rsi_avg_loss) :
    0 ≤ (run_candles F g cs).state.rsi_avg_gain
    ∧ 0 ≤ (run_candles F g cs).state.rsi_avg_loss := by
  induction cs generalizing g with
  | nil => exact h
  | cons c cs ih => exact ih _ (rsi_nonneg_step F g c h)

/-- Shared evaluation: the concrete two-candle run with RSI period 2 whose
warmup finalizes with `avg_loss = 0` and RSI value `10000/101`. -/
theorem fixRun1_rsi_eval :
    (append_candle fixFuns (run_candles fixFuns (AnalysisGenerator.new fixOpts [])
      [fixCandle 0 1 1 1 1]) (fixCandle 60 2 2 2 2)).2.rsi_value = some (10000 / 101)
    ∧ (append_candle fixFuns (run_candles fixFuns (AnalysisGenerator.new fixOpts [])
      [fixCandle 0 1 1 1 1]) (fixCandle 60 2 2 2 2)).1.state.rsi_avg_loss = 0 := by
  have e1 : run_candles fixFuns (AnalysisGenerator.new fixOpts [])
      [fixCandle 0 1 1 1 1] = fixGen1 := rfl
  rw [e1, append_candle_rsi_value, append_candle_rsi_avg_loss]
  have h1 : fixGen1.state.last_candle = some (fixCandle 0 1 1 1 1) := rfl
  have h2 : fixGen1.analysis_array.length = 1 := rfl
  have h3 : fixGen1.state.rsi_avg_gain = 0 := rfl
  have h4 : fixGen1.state.rsi_avg_loss = 0 := rfl
  have h5 : fixGen1.state.rsi_period = 2 := rfl
  unfold rsi_step_of
  rw [h1]
  simp only [h2, h3, h4, h5]
  norm_num [wilder_gain, wilder_loss, rs_of, rsi_of_rs, fixCandle]

/-- C5 counterexample: at a concrete warmed-up step the smoothed average
loss is `0` yet the RSI value is `10000/101 ≈ 99.01`, not `100`: with
`rs = 100` (the code's substitute for `∞` when `avg_loss == 0`),
`100 − 100/(1+rs)` cannot equal `100`. -/
theorem c5_counterexample :
    (append_candle fixFuns (run_candles fixFuns (AnalysisGenerator.new fixOpts [])
      [fixCandle 0 1 1 1 1]) (fixCandle 60 2 2 2 2)).2.rsi_value = some (10000 / 101)
    ∧ (append_candle fixFuns (run_candles fixFuns (AnalysisGenerator.new fixOpts [])
      [fixCandle 0 1 1 1 1]) (fixCandle 60 2 2 2 2)).1.state.rsi_avg_loss = 0
    ∧ (10000 / 101 : ℚ) ≠ 100 :=
  ⟨fixRun1_rsi_eval.1, fixRun1_rsi_eval.2, by norm_num⟩

/-- C5 amended: whenever an RSI value is present in an analysis result of a
generator run, it satisfies `0 ≤ rsi < 100` (hence `0 ≤ rsi ≤ 100` as
claimed); when the smoothed average loss is `0` the value is exactly
`10000/101` (the code sets `rs = 100` there), never `100`. -/
theorem c5_rsi_bounds (F : RealFuns) (opts : AnalysisOptions)
    (mc : List CandleMasterCode) (cs : List Candle) (c : Candle) :
    ∀ x, (append_candle F (run_candles F (AnalysisGenerator.new opts mc) cs) c).2.rsi_value
        = some x →
      (0 ≤ x ∧ x < 100)
      ∧ ((append_candle F (run_candles F (AnalysisGenerator.new opts mc) cs)
            c).1.state.rsi_avg_loss = 0 → x = 10000 / 101) := by
  intro x hx
  have hn := rsi_nonneg_run F (AnalysisGenerator.new opts mc) cs ⟨le_refl 0, le_refl 0⟩
  rw [append_candle_rsi_value] at hx
  have hb := rsi_step_of_bounds _ c hn.1 hn.2 x hx
  refine ⟨hb.1, ?_⟩
  intro h0
  exact hb.2 (by rw [← append_candle_rsi_avg_loss]; exact h0)

/-- Witness for C5 (amended) at the concrete two-candle run. -/
theorem c5_rsi_bounds_witness :
    (append_candle fixFuns (run_candles fixFuns (AnalysisGenerator.new fixOpts [])
      [fixCandle 0 1 1 1 1]) (fixCandle 60 2 2 2 2)).2.rsi_value = some (10000 / 101)
    ∧ ((0 ≤ (10000 / 101 : ℚ) ∧ (10000 / 101 : ℚ) < 100)
        ∧ ((append_candle fixFuns (run_candles fixFuns (AnalysisGenerator.new fixOpts [])
            [fixCandle 0 1 1 1 1]) (fixCandle 60 2 2 2 2)).1.state.rsi_avg_loss = 0
            → (10000 / 101 : ℚ) = 10000 / 101)) :=
  ⟨fixRun1_rsi_eval.1,
    c5_rsi_bounds fixFuns fixOpts [] [fixCandle 0 1 1 1 1] (fixCandle 60 2 2 2 2)
      (10000 / 101) fixRun1_rsi_eval.1⟩

/-! ## C6: RSI warmup -/

theorem step_gains_concat (zs : List ℚ) (a b : ℚ) :
    step_gains (zs ++ [a, b]) = step_gains (zs ++ [a]) ++ [wilder_gain (b - a)] := by
  induction zs with
  | nil => rfl
  | cons z zs ih =>
    cases zs with
    | nil => rfl
    | cons z2 zs2 =>
      simp only [List.cons_append] at ih ⊢
      rw [step_gains, step_gains, ih]
      simp

theorem step_losses_concat (zs : List ℚ) (a b : ℚ) :
    step_losses (zs ++ [a, b]) = step_losses (zs ++ [a]) ++ [wilder_loss (b - a)] := by
  induction zs with
  | nil => rfl
  | cons z zs ih =>
    cases zs with
    | nil => rfl
    | cons z2 zs2 =>
      simp only [List.cons_append] at ih ⊢
      rw [step_losses, step_losses, ih]
      simp

theorem run_candles_nil (F : RealFuns) (g : AnalysisGenerator) :
    run_candles F g [] = g := rfl

theorem run_candles_cons (F : RealFuns) (g : AnalysisGenerator) (c : Candle)
    (cs : List Candle) :
    run_candles F g (c :: cs) = run_candles F (append_candle F g c).1 cs := rfl

theorem run_candles_candle_data (F : RealFuns) (g : AnalysisGenerator)
    (cs : List Candle) :
    (run_candles F g cs).candle_data = g.candle_data ++ cs := by
  induction cs generalizing g with
  | nil => simp [run_candles_nil]
  | cons c cs ih =>
    rw [run_candles_cons, ih, append_candle_candle_data, List.append_assoc,
      List.singleton_append]

/-! Branch characterizations of `rsi_step_of`. -/

theorem rsi_step_of_none (g : AnalysisGenerator) (c : Candle)
    (h : g.state.last_candle = none) :
    rsi_step_of g c = ((g.state.rsi_avg_gain, g.state.rsi_avg_loss), none) := by
  unfold rsi_step_of
  rw [h]

theorem rsi_step_of_acc (g : AnalysisGenerator) (c : Candle) (p : Candle)
    (h : g.state.last_candle = some p) (h1 : g.analysis_array.length ≠ 0)
    (h2 : g.analysis_array.length < g.state.rsi_period)
    (h3 : g.analysis_array.length + 1 ≠ g.state.rsi_period) :
    rsi_step_of g c =
      ((g.state.rsi_avg_gain + wilder_gain (c.close - p.close),
        g.state.rsi_avg_loss + wilder_loss (c.close - p.close)), none) := by
  unfold rsi_step_of
  rw [h]
  dsimp only
  rw [if_pos h2]
  simp only [if_neg h1, if_neg h3]

theorem rsi_step_of_fin (g : AnalysisGenerator) (c : Candle) (p : Candle)
    (h : g.state.last_candle = some p) (h1 : g.analysis_array.length ≠ 0)
    (h2 : g.analysis_array.length < g.state.rsi_period)
    (h3 : g.analysis_array.length + 1 = g.state.rsi_period) :
    rsi_step_of g c =
      (((g.state.rsi_avg_gain + wilder_gain (c.close - p.close)) / (g.state.rsi_period : ℚ),
        (g.state.rsi_avg_loss + wilder_loss (c.close - p.close)) / (g.state.rsi_period : ℚ)),
       some (rsi_of_rs (rs_of
        ((g.state.rsi_avg_gain + wilder_gain (c.close - p.close)) / (g.state.rsi_period : ℚ))
        ((g.state.rsi_avg_loss + wilder_loss (c.close - p.close)) / (g.state.rsi_period : ℚ))))) := by
  unfold rsi_step_of
  rw [h]
  dsimp only
  rw [if_pos h2]
  simp only [if_neg h1, if_pos h3]

theorem rsi_step_of_wilder (g : AnalysisGenerator) (c : Candle) (p : Candle)
    (h : g.state.last_candle = some p)
    (h2 : ¬ g.analysis_array.length < g.state.rsi_period) :
    rsi_step_of g c =
      (((g.state.rsi_avg_gain * ((g.state.rsi_period : ℚ) - 1)
          + wilder_gain (c.close - p.close)) / (g.state.rsi_period : ℚ),
        (g.state.rsi_avg_loss * ((g.state.rsi_period : ℚ) - 1)
          + wilder_loss (c.close - p.close)) / (g.state.rsi_period : ℚ)),
       some (rsi_of_rs (rs_of
        ((g.state.rsi_avg_gain * ((g.state.rsi_period : ℚ) - 1)
          + wilder_gain (c.close - p.close)) / (g.state.rsi_period : ℚ))
        ((g.state.rsi_avg_loss * ((g.state.rsi_period : ℚ) - 1)
          + wilder_loss (c.close - p.close)) / (g.state.rsi_period : ℚ))))) := by
  unfold rsi_step_of
  rw [h]
  dsimp only
  rw [if_neg h2]


theorem rsiRunInv_new (opts : AnalysisOptions) (mc : List CandleMasterCode) :
    RsiRunInv opts.rsi_period (AnalysisGenerator.new opts mc) := by
  refine ⟨rfl, rfl, rfl, ?_, ?_, ?_⟩
  · intro _; exact ⟨rfl, rfl⟩
  · intro _; exact ⟨(zero_div _).symm, (zero_div _).symm⟩
  · intro r hr; exact absurd hr (List.not_mem_nil r)

theorem rsiRunInv_step (F : RealFuns) (period : Nat) (h2p : 2 ≤ period)
    (g : AnalysisGenerator) (c : Candle) (h : RsiRunInv period g) :
    RsiRunInv period (append_candle F g c).1 := by
  obtain ⟨hper, hlen, hlast, hsum, hfin, hmem⟩ := h
  have hmem' : ∀ r ∈ set_next_color_of_last g.analysis_array
      ((append_candle F g c).2.color), (r.rsi_value.isSome ↔ period ≤ r.index + 1) := by
    rcases List.eq_nil_or_concat g.analysis_array with ha | ⟨xs, last, ha⟩
    · rw [ha, set_next_color_of_last_nil]; intro r hr
      exact absurd hr (List.not_mem_nil r)
    · rw [ha, List.concat_eq_append] at hmem ⊢
      rw [set_next_color_of_last_concat]
      intro r hr
      rcases List.mem_append.mp hr with hr | hr
      · exact hmem r (List.mem_append.mpr (Or.inl hr))
      · rw [List.mem_singleton.mp hr]
        exact hmem last (List.mem_append.mpr (Or.inr (List.mem_singleton.mpr rfl)))
  have hnewmem : ∀ r ∈ (append_candle F g c).1.analysis_array,
      r.rsi_value = (rsi_step_of g c).2 ∧ r.index = g.analysis_array.length
      ∨ (r.rsi_value.isSome ↔ period ≤ r.index + 1) := by
    intro r hr
    rw [append_candle_analysis_array] at hr
    rcases List.mem_append.mp hr with hr | hr
    · exact Or.inr (hmem' r hr)
    · rw [List.mem_singleton.mp hr]
      exact Or.inl ⟨append_candle_rsi_value F g c, append_candle_index F g c⟩
  rcases List.eq_nil_or_concat g.candle_data with hd | ⟨ys, p, hd⟩
  · -- no candles yet: the RSI block takes the `none` branch
    have hk : g.candle_data.length = 0 := by rw [hd]; rfl
    have hi : g.analysis_array.length = 0 := by rw [hlen, hk]
    have hlast' : g.state.last_candle = none := by rw [hlast, hd]; rfl
    have hstep := rsi_step_of_none g c hlast'
    have h0 := hsum (by omega)
    refine ⟨?_, ?_, ?_, ?_, ?_, ?_⟩
    · rw [append_candle_rsi_period]; exact hper
    · rw [append_candle_array_length, append_candle_candle_data]
      simp [hlen]
    · rw [append_candle_last_candle, append_candle_candle_data, List.getLast?_concat]
    · intro _
      rw [append_candle_rsi_avg_gain, append_candle_rsi_avg_loss, hstep,
        append_candle_candle_data, hd]
      refine ⟨?_, ?_⟩
      · rw [h0.1, hd]; rfl
      · rw [h0.2, hd]; rfl
    · intro habs
      rw [append_candle_candle_data, hd] at habs
      simp at habs
      omega
    · intro r hr
      rcases hnewmem r hr with ⟨hv, hidx⟩ | hiff
      · rw [hv, hstep, hidx, hi]
        simp
        omega
      · exact hiff
  · -- at least one candle: the RSI block sees the previous close
    have hk : g.candle_data.length = ys.length + 1 := by
      rw [hd]; simp [List.concat_eq_append]
    have hi : g.analysis_array.length = ys.length + 1 := by rw [hlen, hk]
    have hi0 : g.analysis_array.length ≠ 0 := by omega
    have hlast' : g.state.last_candle = some p := by
      rw [hlast, hd, List.concat_eq_append, List.getLast?_concat]
    have hcd : (append_candle F g c).1.candle_data = (ys ++ [p]) ++ [c] := by
      rw [append_candle_candle_data, hd, List.concat_eq_append]
    have hcloses : closes ((ys ++ [p]) ++ [c]) = closes ys ++ [p.close, c.close] := by
      unfold closes
      simp
    have hcloses1 : closes (ys ++ [p]) = closes ys ++ [p.close] := by
      unfold closes; simp
    have hgsum : (step_gains (closes ((ys ++ [p]) ++ [c]))).sum
        = (step_gains (closes (ys ++ [p]))).sum + wilder_gain (c.close - p.close) := by
      rw [hcloses, hcloses1, step_gains_concat, List.sum_append]
      simp
    have hlsum : (step_losses (closes ((ys ++ [p]) ++ [c]))).sum
        = (step_losses (closes (ys ++ [p]))).sum + wilder_loss (c.close - p.close) := by
      rw [hcloses, hcloses1, step_losses_concat, List.sum_append]
      simp
    refine ⟨?_, ?_, ?_, ?_, ?_, ?_⟩
    · rw [append_candle_rsi_period]; exact hper
    · rw [append_candle_array_length, append_candle_candle_data]
      simp [hlen]
    · rw [append_candle_last_candle, append_candle_candle_data, List.getLast?_concat]
    · -- new count < period: still accumulating
      intro hlt
      rw [append_candle_candle_data, hd, List.concat_eq_append] at hlt ⊢
      simp only [List.length_append, List.length_singleton] at hlt
      have hlt2 : g.analysis_array.length < g.state.rsi_period := by
        rw [hi, hper]; omega
      have hne : g.analysis_array.length + 1 ≠ g.state.rsi_period := by
        rw [hi, hper]; omega
      have hstep := rsi_step_of_acc g c p hlast' hi0 hlt2 hne
      have hold := hsum (by omega)
      rw [append_candle_rsi_avg_gain, append_candle_rsi_avg_loss, hstep]
      rw [hd, List.concat_eq_append] at hold
      exact ⟨by rw [hgsum, hold.1], by rw [hlsum, hold.2]⟩
    · -- new count = period: finalize by dividing by period
      intro heq
      rw [append_candle_candle_data, hd, List.concat_eq_append] at heq ⊢
      simp only [List.length_append, List.length_singleton] at heq
      have hlt2 : g.analysis_array.length < g.state.rsi_period := by
        rw [hi, hper]; omega
      have heq2 : g.analysis_array.length + 1 = g.state.rsi_period := by
        rw [hi, hper]; omega
      have hstep := rsi_step_of_fin g c p hlast' hi0 hlt2 heq2
      have hold := hsum (by omega)
      rw [append_candle_rsi_avg_gain, append_candle_rsi_avg_loss, hstep]
      rw [hd, List.concat_eq_append] at hold
      rw [hgsum, hlsum, hold.1, hold.2, hper]
      exact ⟨rfl, rfl⟩
    · -- result presence
      intro r hr
      rcases hnewmem r hr with ⟨hv, hidx⟩ | hiff
      · by_cases hlt2 : g.analysis_array.length < g.state.rsi_period
        · by_cases heq2 : g.analysis_array.length + 1 = g.state.rsi_period
          · rw [hv, rsi_step_of_fin g c p hlast' hi0 hlt2 heq2, hidx]
            rw [hper] at heq2
            simp
            omega
          · rw [hv, rsi_step_of_acc g c p hlast' hi0 hlt2 heq2, hidx]
            rw [hper] at heq2 hlt2
            simp
            omega
        · rw [hv, rsi_step_of_wilder g c p hlast' hlt2, hidx]
          rw [hper] at hlt2
          simp
          omega
      · exact hiff

theorem rsiRunInv_run (F : RealFuns) (opts : AnalysisOptions)
    (mc : List CandleMasterCode) (h2p : 2 ≤ opts.rsi_period) (cs : List Candle) :
    RsiRunInv opts.rsi_period (run_candles F (AnalysisGenerator.new opts mc) cs) := by
  suffices h : ∀ g, RsiRunInv opts.rsi_period g →
      RsiRunInv opts.rsi_period (run_candles F g cs) from
    h _ (rsiRunInv_new opts mc)
  induction cs with
  | nil => intro g hg; exact hg
  | cons c cs ih =>
    intro g hg
    rw [run_candles_cons]
    exact ih _ (rsiRunInv_step F opts.rsi_period h2p g c hg)

/-- C6 counterexample: with RSI period 1 the very first candle has
`rsi_value = none` although its 1-based step number (1) is ≥ the period, so
"present from step `period` onward" fails for period 1. -/
theorem c6_counterexample :
    fixOpts1.rsi_period
      ≤ (append_candle fixFuns (AnalysisGenerator.new fixOpts1 [])
          (fixCandle 0 1 1 1 1)).2.index + 1
    ∧ (append_candle fixFuns (AnalysisGenerator.new fixOpts1 [])
        (fixCandle 0 1 1 1 1)).2.rsi_value = none :=
  ⟨by decide, rfl⟩

/-- C6 amended: for RSI period ≥ 2 (for period 1 the first candle still has
no RSI because it has no prior close), a run accumulates the sums of gains
and losses over consecutive closes while fewer than `period` candles have
been seen, divides them by `period` at the `period`-th candle, and
`rsi_value` is `none` for every candle strictly before the `period`-th
(1-based) and present from the `period`-th onward. -/
theorem c6_rsi_warmup (F : RealFuns) (opts : AnalysisOptions)
    (mc : List CandleMasterCode) (cs : List Candle) (h2p : 2 ≤ opts.rsi_period) :
    (∀ r ∈ (run_candles F (AnalysisGenerator.new opts mc) cs).analysis_array,
      (r.rsi_value.isSome ↔ opts.rsi_period ≤ r.index + 1))
    ∧ (cs.length < opts.rsi_period →
        (run_candles F (AnalysisGenerator.new opts mc) cs).state.rsi_avg_gain
          = (step_gains (closes cs)).sum
        ∧ (run_candles F (AnalysisGenerator.new opts mc) cs).state.rsi_avg_loss
          = (step_losses (closes cs)).sum)
    ∧ (cs.length = opts.rsi_period →
        (run_candles F (AnalysisGenerator.new opts mc) cs).state.rsi_avg_gain
          = (step_gains (closes cs)).sum / (opts.rsi_period : ℚ)
        ∧ (run_candles F (AnalysisGenerator.new opts mc) cs).state.rsi_avg_loss
          = (step_losses (closes cs)).sum / (opts.rsi_period : ℚ)) := by
  have hinv := rsiRunInv_run F opts mc h2p cs
  obtain ⟨hper, hlen, hlast, hsum, hfin, hmem⟩ := hinv
  have hcd : (run_candles F (AnalysisGenerator.new opts mc) cs).candle_data = cs := by
    rw [run_candles_candle_data]
    rfl
  rw [hcd] at hsum hfin
  exact ⟨hmem, hsum, hfin⟩

/-! ## C1: the decision pass -/

theorem specClassify_cases (call put : List String) (code : String) :
    specClassify call put code = "CALL" ∨ specClassify call put code = "PUT"
    ∨ specClassify call put code = "IDLE" := by
  unfold specClassify
  split_ifs <;> simp

theorem classify_eq (call put : List String) (code : String) :
    (if call.contains code then "CALL"
     else if put.contains code then "PUT" else "IDLE")
      = specClassify call put code := by
  unfold specClassify
  by_cases h1 : call.contains code
  · rw [if_pos h1, if_pos (List.elem_iff.mp h1)]
  · rw [if_neg h1, if_neg (fun hm => h1 (List.elem_iff.mpr hm))]
    by_cases h2 : put.contains code
    · rw [if_pos h2, if_pos (List.elem_iff.mp h2)]
    · rw [if_neg h2, if_neg (fun hm => h2 (List.elem_iff.mpr hm))]

theorem stake_eq (mode : String) (init : ℚ) (idx : Nat)
    (h : mode = "fix" ∨ mode = "martingale") :
    (if mode = "martingale" then
      martingale_stakes.getD (min idx (martingale_stakes.length - 1)) 0
    else init) = specStake mode init idx := by
  rcases h with h | h <;> subst h
  · simp [specStake]
  · unfold specStake
    have hlen : martingale_stakes.length - 1 = 8 := rfl
    rw [if_pos rfl, if_neg (by decide), hlen]
    by_cases h8 : 8 ≤ idx
    · rw [if_pos h8, min_eq_right h8]
      rfl
    · rw [if_neg h8, min_eq_left (by omega)]
      rfl

theorem decision_pass_step_eq (s : AutoTradeState) (symbols : List String)
    (gens : List (String × AnalysisGenerator)) (entry : TradeSignalEntry)
    (acc : List BuyOrder)
    (hmode : s.current_money_mode = "fix" ∨ s.current_money_mode = "martingale") :
    decision_pass_step s symbols gens acc entry
      = acc ++ (specCandidate s symbols gens entry).toList := by
  unfold decision_pass_step specCandidate
  by_cases hy : entry.is_active = "y"
  · by_cases hsym : symbols.contains entry.asset_code
    · simp only [hy, hsym, bne_self_eq_false, Bool.false_eq_true, if_false,
        not_true, and_self, if_true, true_and]
      cases hg : List.lookup entry.asset_code gens with
      | none => simp [hg]
      | some gen =>
        cases hla : gen.state.last_analysis with
        | none => simp [hg, hla]
        | some analysis =>
          simp only [hg, hla, Option.some_bind]
          rw [classify_eq]
          rcases specClassify_cases ((entry.call_signal.splitOn ",").map String.trim)
            ((entry.put_signal.splitOn ",").map String.trim) analysis.status_code
            with hd | hd | hd <;> rw [hd]
          · simp only [if_pos (Or.inl rfl)]
            rw [stake_eq _ _ _ hmode]
            split_ifs <;> simp_all
          · simp only [if_pos (Or.inr rfl)]
            rw [stake_eq _ _ _ hmode]
            split_ifs <;> simp_all
          · simp
    · have hmem : entry.asset_code ∉ symbols := fun hm => hsym (List.elem_iff.mpr hm)
      simp [hy, hmem]
  · simp [hy]

theorem decision_pass_foldl (s : AutoTradeState) (symbols : List String)
    (gens : List (String × AnalysisGenerator))
    (hmode : s.current_money_mode = "fix" ∨ s.current_money_mode = "martingale") :
    ∀ (es : List TradeSignalEntry) (acc : List BuyOrder),
      es.foldl (decision_pass_step s symbols gens) acc
        = acc ++ es.filterMap (specCandidate s symbols gens) := by
  intro es
  induction es with
  | nil => intro acc; simp
  | cons e es ih =>
    intro acc
    rw [List.foldl_cons, decision_pass_step_eq s symbols gens e acc hmode, ih,
      List.filterMap_cons]
    cases hc : specCandidate s symbols gens e <;> simp [hc]

/-- C1: when the money mode is `fix` or `martingale` and the lot is active,
the decision pass dispatches exactly the buy orders described by the spec:
for each active, selected rulebook entry whose generator has a last
analysis, CALL if the status code is in the call set, else PUT if in the put
set, else IDLE; the stake is `initial_stake` in fix mode or the Martingale
ladder value (clamped to the last entry) in martingale mode; the buy is
dispatched iff `balance ≥ stake`. -/
theorem c1_decision_pass_spec (s : AutoTradeState)
    (entries : List TradeSignalEntry) (symbols : List String)
    (gens : List (String × AnalysisGenerator))
    (hmode : s.current_money_mode = "fix" ∨ s.current_money_mode = "martingale")
    (hlot : s.lot_active = true) :
    decision_pass s entries symbols gens
      = entries.filterMap (specCandidate s symbols gens) := by
  unfold decision_pass
  rw [decision_pass_foldl s symbols gens hmode]
  simp


/-- Witness for C1 at a concrete state, entry and generator. -/
theorem c1_decision_pass_spec_witness :
    (fixTradeState.current_money_mode = "fix"
      ∨ fixTradeState.current_money_mode = "martingale")
    ∧ fixTradeState.lot_active = true
    ∧ decision_pass fixTradeState [fixEntry] ["X"] [("X", fixGen1)]
        = [fixEntry].filterMap (specCandidate fixTradeState ["X"] [("X", fixGen1)]) :=
  ⟨Or.inl rfl, rfl,
    c1_decision_pass_spec fixTradeState [fixEntry] ["X"] [("X", fixGen1)]
      (Or.inl rfl) rfl⟩

/-! ## C2/C3/C4: settlement -/

theorem alist_lookup_filter_ne {β : Type} (m : List (String × β)) (k k' : String)
    (h : k' ≠ k) :
    (m.filter (fun p => p.1 != k)).lookup k' = m.lookup k' := by
  induction m with
  | nil => rfl
  | cons a m ih =>
    obtain ⟨ka, va⟩ := a
    by_cases hk : ka = k
    · subst hk
      have hb : (k' == ka) = false := beq_eq_false_iff_ne.mpr h
      simp [List.filter_cons, List.lookup, hb, ih]
    · have hb : (ka != k) = true := by simp [bne_iff_ne, hk]
      by_cases hk' : k' = ka
      · subst hk'
        simp [List.filter_cons, hb, List.lookup]
      · have hb2 : (k' == ka) = false := beq_eq_false_iff_ne.mpr hk'
        simp [List.filter_cons, hb, List.lookup, hb2, ih]

theorem alist_lookup_insert {β : Type} (m : List (String × β)) (k : String)
    (v : β) (k' : String) :
    (alist_insert m k v).lookup k' = if k' = k then some v else m.lookup k' := by
  unfold alist_insert
  by_cases h : k' = k
  · subst h
    simp [List.lookup]
  · have hb : (k' == k) = false := beq_eq_false_iff_ne.mpr h
    simp only [List.lookup, hb, if_neg h]
    exact alist_lookup_filter_ne m k k' h

/-- The settlement handler never touches `trade_count` (it is incremented by
the buy-response handler instead) and never touches `lot_active` (the
source's `let _lot_active = false;` binds a fresh local). -/
theorem handle_contract_final_untouched (s : AutoTradeState) (p : ProposalSettlement) :
    (handle_contract_final s p).1.trade_count = s.trade_count
    ∧ (handle_contract_final s p).1.lot_active = s.lot_active := by
  unfold handle_contract_final
  split_ifs <;> simp

/-- Money fields of a settlement. -/
theorem handle_contract_final_money (s : AutoTradeState) (p : ProposalSettlement)
    (h : p.status = "sold" ∨ p.status = "won" ∨ p.status = "lost") :
    (handle_contract_final s p).1.balance = s.balance + p.profit
    ∧ (handle_contract_final s p).1.grand_profit = s.grand_profit + p.profit
    ∧ (handle_contract_final s p).1.win_count
        = (if p.profit > 0 then s.win_count + 1 else s.win_count)
    ∧ (handle_contract_final s p).2.is_win = decide (p.profit > 0)
    ∧ (handle_contract_final s p).2.trade_result_status
        = (if p.profit > 0 then "win" else "loss") := by
  unfold handle_contract_final
  rw [if_pos h]
  dsimp only
  split_ifs <;> simp_all

/-- The Martingale-ladder update of a settlement. -/
theorem handle_contract_final_ladder (s : AutoTradeState) (p : ProposalSettlement)
    (h : p.status = "sold" ∨ p.status = "won" ∨ p.status = "lost") :
    (handle_contract_final s p).1.stake_index_per_asset
      = (if p.profit > 0 then
          alist_insert s.stake_index_per_asset
            ((alist_remove s.pending_contracts p.contract_id).1.getD "") 0
        else if s.current_money_mode = "martingale" then
          alist_insert s.stake_index_per_asset
            ((alist_remove s.pending_contracts p.contract_id).1.getD "")
            (min (((s.stake_index_per_asset.lookup
              ((alist_remove s.pending_contracts p.contract_id).1.getD "")).getD 0) + 1)
              (martingale_stakes.length - 1))
        else s.stake_index_per_asset) := by
  unfold handle_contract_final
  rw [if_pos h]
  dsimp only
  split_ifs with hw hs hs hm hm <;> simp_all

/-! ## C4 -/

/-- C4 counterexample: a settlement does not increment `trade_count` (the
increment happens in the buy-response handler): at a concrete winning
settlement the trade count stays 0 instead of becoming 1. -/
theorem c4_counterexample :
    fixSettlement10.status = "won"
    ∧ (handle_contract_final fixSettleState fixSettlement10).1.trade_count
        = fixSettleState.trade_count
    ∧ fixSettleState.trade_count = 0
    ∧ (handle_contract_final fixSettleState fixSettlement10).1.trade_count
        ≠ fixSettleState.trade_count + 1 := by
  refine ⟨rfl, (handle_contract_final_untouched fixSettleState fixSettlement10).1, rfl, ?_⟩
  rw [(handle_contract_final_untouched fixSettleState fixSettlement10).1]
  decide

/-- C4 amended: every settlement sets `is_win := profit > 0`, adds the
profit to both `balance` and `grand_profit` exactly, and increments
`win_count` iff the profit is positive; `trade_count` is unchanged by
settlement — it is incremented (by one) by the buy-response handler when the
contract opens. -/
theorem c4_settlement_updates (s : AutoTradeState) (p : ProposalSettlement)
    (h : p.status = "sold" ∨ p.status = "won" ∨ p.status = "lost") :
    (handle_contract_final s p).1.balance = s.balance + p.profit
    ∧ (handle_contract_final s p).1.grand_profit = s.grand_profit + p.profit
    ∧ (handle_contract_final s p).1.win_count
        = (if p.profit > 0 then s.win_count + 1 else s.win_count)
    ∧ (handle_contract_final s p).2.is_win = decide (p.profit > 0)
    ∧ (handle_contract_final s p).2.trade_result_status
        = (if p.profit > 0 then "win" else "loss")
    ∧ (handle_contract_final s p).1.trade_count = s.trade_count
    ∧ ∀ (cid a : String), (handle_buy_response s cid a).trade_count
        = s.trade_count + 1 := by
  obtain ⟨h1, h2, h3, h4, h5⟩ := handle_contract_final_money s p h
  exact ⟨h1, h2, h3, h4, h5, (handle_contract_final_untouched s p).1,
    fun cid a => rfl⟩

/-! ## C3 -/

/-- C3 counterexample: in fix mode a winning settlement *does* change the
ladder index — it resets it to 0 (here from 3), contradicting "in fix mode
settlements never change the ladder index". -/
theorem c3_counterexample :
    fixSettleState.current_money_mode = "fix"
    ∧ fixSettlement10.status = "won"
    ∧ fixSettleState.stake_index_per_asset.lookup "X" = some 3
    ∧ (handle_contract_final fixSettleState fixSettlement10).1.stake_index_per_asset.lookup "X"
        = some 0 := by
  refine ⟨rfl, rfl, rfl, ?_⟩
  rw [handle_contract_final_ladder fixSettleState fixSettlement10 (Or.inr (Or.inl rfl))]
  rw [if_pos (by norm_num [fixSettlement10])]
  have ha : (alist_remove fixSettleState.pending_contracts
      fixSettlement10.contract_id).1.getD "" = "X" := rfl
  rw [ha, alist_lookup_insert]
  simp

/-- C3 amended: on every settlement, the settled symbol's ladder index is
reset to 0 on a win in *every* money mode (including fix); on a loss it
advances by one, saturating at index 8, in martingale mode, and is left
unchanged in any other mode (so fix-mode *losses* never change the ladder);
the map's indices never exceed 8 if they did not before, and the settled
symbol's index is exactly 0 after any win. -/
theorem c3_martingale_ladder (s : AutoTradeState) (p : ProposalSettlement)
    (h : p.status = "sold" ∨ p.status = "won" ∨ p.status = "lost") :
    (p.profit > 0 →
      (handle_contract_final s p).1.stake_index_per_asset
        = alist_insert s.stake_index_per_asset
            ((alist_remove s.pending_contracts p.contract_id).1.getD "") 0
      ∧ (handle_contract_final s p).1.stake_index_per_asset.lookup
          ((alist_remove s.pending_contracts p.contract_id).1.getD "") = some 0)
    ∧ (¬ p.profit > 0 → s.current_money_mode = "martingale" →
        (handle_contract_final s p).1.stake_index_per_asset
          = alist_insert s.stake_index_per_asset
              ((alist_remove s.pending_contracts p.contract_id).1.getD "")
              (min (((s.stake_index_per_asset.lookup
                ((alist_remove s.pending_contracts p.contract_id).1.getD "")).getD 0) + 1) 8))
    ∧ (¬ p.profit > 0 → s.current_money_mode ≠ "martingale" →
        (handle_contract_final s p).1.stake_index_per_asset = s.stake_index_per_asset)
    ∧ ((∀ k v, s.stake_index_per_asset.lookup k = some v → v ≤ 8) →
        ∀ k v, (handle_contract_final s p).1.stake_index_per_asset.lookup k = some v →
          v ≤ 8) := by
  have hl := handle_contract_final_ladder s p h
  have hlen : martingale_stakes.length - 1 = 8 := rfl
  rw [hlen] at hl
  refine ⟨?_, ?_, ?_, ?_⟩
  · intro hw
    rw [hl, if_pos hw]
    refine ⟨rfl, ?_⟩
    rw [alist_lookup_insert]
    simp
  · intro hw hm
    rw [hl, if_neg hw, if_pos hm]
  · intro hw hm
    rw [hl, if_neg hw, if_neg hm]
  · intro hb k v
    rw [hl]
    split_ifs with hw hm
    · rw [alist_lookup_insert]
      split_ifs with hk
      · intro hv
        have h0 := Option.some.inj hv
        omega
      · exact hb k v
    · rw [alist_lookup_insert]
      split_ifs with hk
      · intro hv
        have h0 := Option.some.inj hv
        have h1 : min (((s.stake_index_per_asset.lookup
            ((alist_remove s.pending_contracts p.contract_id).1.getD "")).getD 0) + 1) 8
            ≤ 8 := min_le_right _ _
        omega
      · exact hb k v
    · exact hb k v

/-- Witness for C3 (amended) at a concrete winning settlement: the settled
symbol is `X` and its ladder index is reset to 0. -/
theorem c3_martingale_ladder_witness :
    (alist_remove fixSettleState.pending_contracts fixSettlement10.contract_id).1.getD ""
      = "X"
    ∧ fixSettlement10.profit > 0
    ∧ (handle_contract_final fixSettleState fixSettlement10).1.stake_index_per_asset.lookup
        ((alist_remove fixSettleState.pending_contracts
          fixSettlement10.contract_id).1.getD "") = some 0 :=
  ⟨rfl, by norm_num [fixSettlement10],
    ((c3_martingale_ladder fixSettleState fixSettlement10 (Or.inr (Or.inl rfl))).1
      (by norm_num [fixSettlement10])).2⟩

/-! ## C2 -/

/-- C2 (code bug): at a concrete settlement that meets the fix-mode stop
condition (grand profit 0 + 10 ≥ target 10), the handler sends a forget for
every live subscription id, broadcasts a final `auto_trade_status` with
`active := false`, and breaks the loop — but `lot_active` remains `true`:
`main.rs` line 3624 executes `let _lot_active = false;`, which binds a fresh
unused local instead of assigning the loop's `lot_active` flag. -/
theorem c2_stop_behavior :
    fixSettleState.current_money_mode = "fix"
    ∧ (handle_contract_final fixSettleState fixSettlement10).1.grand_profit
        ≥ fixSettleState.target_profit
    ∧ (handle_contract_final fixSettleState fixSettlement10).2.loop_break = true
    ∧ (handle_contract_final fixSettleState fixSettlement10).2.forget_ids
        = fixSettleState.sub_ids
    ∧ (handle_contract_final fixSettleState fixSettlement10).2.final_status_active
        = some false
    ∧ (handle_contract_final fixSettleState fixSettlement10).1.lot_active = true := by
  have heff : (handle_contract_final fixSettleState fixSettlement10).2
      = { is_win := true, trade_result_status := "win", forget_ids := ["s1", "s2"],
          final_status_active := some false, loop_break := true } := by
    norm_num [handle_contract_final, fixSettleState, fixSettlement10]
  refine ⟨rfl, ?_, ?_, ?_, ?_, ?_⟩
  · rw [(handle_contract_final_money fixSettleState fixSettlement10
      (Or.inr (Or.inl rfl))).2.1]
    norm_num [fixSettleState, fixSettlement10]
  · rw [heff]
  · rw [heff]; rfl
  · rw [heff]
  · exact (handle_contract_final_untouched fixSettleState fixSettlement10).2

/-! ## C8 -/

/-- The forming candle's open time is always 60-aligned. -/
def TickInv (g : AnalysisGenerator) : Prop :=
  ∀ cur, g.current_candle = some cur → cur.time % 60 = 0

theorem tickInv_step (F : RealFuns) (g : AnalysisGenerator) (price : ℚ)
    (time : Nat) (h : TickInv g) : TickInv (append_tick F g price time).1 := by
  unfold append_tick
  cases hc : g.current_candle with
  | none =>
    dsimp only
    intro cur hcur
    obtain rfl := (Option.some.inj hcur).symm
    simp [Nat.mul_mod_left]
  | some current =>
    dsimp only
    by_cases ht : current.time + 60 ≤ time
    · rw [if_pos ht]
      intro cur hcur
      obtain rfl := (Option.some.inj hcur).symm
      simp [Nat.mul_mod_left]
    · rw [if_neg ht]
      intro cur hcur
      obtain rfl := (Option.some.inj hcur).symm
      simpa using h current hc

theorem tickInv_run (F : RealFuns) (opts : AnalysisOptions)
    (mc : List CandleMasterCode) (ts : List (ℚ × Nat)) :
    TickInv (run_ticks F (AnalysisGenerator.new opts mc) ts) := by
  suffices hs : ∀ g, TickInv g → TickInv (run_ticks F g ts) from
    hs _ (fun cur hcur => by simp [AnalysisGenerator.new] at hcur)
  induction ts with
  | nil => intro g hg; exact hg
  | cons t ts ih => intro g hg; exact ih _ (tickInv_step F g t.1 t.2 hg)

/-- C8: `append_tick` keeps a forming candle aligned to `time/60*60`;
it closes the forming candle through `append_candle` and returns its result
exactly when the tick's minute is later than the forming candle's open time
(opening a fresh forming candle at the tick's minute with all OHLC equal to
the tick price); in every other case — a tick in the same minute, or the
very first tick — it just updates or creates the forming candle and returns
`none`. -/
theorem c8_append_tick (F : RealFuns) (opts : AnalysisOptions)
    (mc : List CandleMasterCode) (ts : List (ℚ × Nat)) (price : ℚ) (time : Nat) :
    (∀ cur, (run_ticks F (AnalysisGenerator.new opts mc) ts).current_candle = some cur →
      (time / 60 * 60 > cur.time →
        append_tick F (run_ticks F (AnalysisGenerator.new opts mc) ts) price time
          = ({ (append_candle F (run_ticks F (AnalysisGenerator.new opts mc) ts) cur).1 with
                current_candle := some
                  { time := time / 60 * 60, «open» := price, high := price,
                    low := price, close := price } },
             some (append_candle F (run_ticks F (AnalysisGenerator.new opts mc) ts) cur).2))
      ∧ (time / 60 * 60 ≤ cur.time →
        append_tick F (run_ticks F (AnalysisGenerator.new opts mc) ts) price time
          = ({ (run_ticks F (AnalysisGenerator.new opts mc) ts) with
                current_candle := some
                  { cur with
                    high := max cur.high price,
                    low := min cur.low price,
                    close := price } }, none)))
    ∧ ((run_ticks F (AnalysisGenerator.new opts mc) ts).current_candle = none →
        append_tick F (run_ticks F (AnalysisGenerator.new opts mc) ts) price time
          = ({ (run_ticks F (AnalysisGenerator.new opts mc) ts) with
                current_candle := some
                  { time := time / 60 * 60, «open» := price, high := price,
                    low := price, close := price } }, none)) := by
  constructor
  · intro cur hcur
    have hdiv : cur.time % 60 = 0 := tickInv_run F opts mc ts cur hcur
    constructor
    · intro hgt
      unfold append_tick
      simp only [hcur]
      rw [if_pos (by omega : cur.time + 60 ≤ time)]
    · intro hle
      unfold append_tick
      simp only [hcur]
      rw [if_neg (by omega : ¬ cur.time + 60 ≤ time)]
  · intro hnone
    unfold append_tick
    simp only [hnone]

/-- Witness for C8 at a concrete tick sequence: one tick at second 0, then a
tick at second 70 (a later minute), which closes the forming candle. -/
theorem c8_append_tick_witness :
    (run_ticks fixFuns (AnalysisGenerator.new fixOpts []) [(5, 0)]).current_candle
      = some { time := 0, «open» := 5, high := 5, low := 5, close := 5 }
    ∧ 70 / 60 * 60 > 0
    ∧ append_tick fixFuns (run_ticks fixFuns (AnalysisGenerator.new fixOpts []) [(5, 0)]) 7 70
        = ({ (append_candle fixFuns (run_ticks fixFuns (AnalysisGenerator.new fixOpts [])
              [(5, 0)]) { time := 0, «open» := 5, high := 5, low := 5, close := 5 }).1 with
              current_candle := some
                { time := 70 / 60 * 60, «open» := 7, high := 7, low := 7, close := 7 } },
           some (append_candle fixFuns (run_ticks fixFuns (AnalysisGenerator.new fixOpts [])
              [(5, 0)]) { time := 0, «open» := 5, high := 5, low := 5, close := 5 }).2) :=
  ⟨rfl, by decide,
    ((c8_append_tick fixFuns fixOpts [] [(5, 0)] 7 70).1
      { time := 0, «open» := 5, high := 5, low := 5, close := 5 } rfl).1 (by decide)⟩

/-- Witness for C4 (amended) at a concrete settlement. -/
theorem c4_settlement_updates_witness :
    (fixSettlement10.status = "sold" ∨ fixSettlement10.status = "won"
      ∨ fixSettlement10.status = "lost")
    ∧ (handle_contract_final fixSettleState fixSettlement10).1.balance
        = fixSettleState.balance + fixSettlement10.profit :=
  ⟨Or.inr (Or.inl rfl),
    (c4_settlement_updates fixSettleState fixSettlement10 (Or.inr (Or.inl rfl))).1⟩

/-- Witness for C6 (amended) at the concrete RSI-period-2 run. -/
theorem c6_rsi_warmup_witness :
    2 ≤ fixOpts.rsi_period
    ∧ (∀ r ∈ (run_candles fixFuns (AnalysisGenerator.new fixOpts [])
          [fixCandle 0 1 1 1 1, fixCandle 60 2 2 2 2]).analysis_array,
        (r.rsi_value.isSome ↔ fixOpts.rsi_period ≤ r.index + 1)) :=
  ⟨by decide,
    (c6_rsi_warmup fixFuns fixOpts [] [fixCandle 0 1 1 1 1, fixCandle 60 2 2 2 2]
      (by decide)).1⟩

end RelayServer
